import Mathlib

/-!
# Intel machine-check classification and recovery (`mce_intel.c`)

A shallow embedding of `xen/arch/x86/cpu/mcheck/mce_intel.c`.

* 64-bit register values are natural numbers; `&` is `&&&`, `>>` is `>>>`,
  and a C condition `x & M` is `x &&& M ≠ 0`.
* The bit masks of `x86_mca.h`, `public/sysctl.h`, `public/xen.h` and
  `asm/page.h` are not part of the source file; they are parameters
  (`x86_mca_h`, `memerr_h`, `mcg_cap_h`, `cmci_h`, `msr_h`).  Every general theorem
  holds for all values of them, under the hypotheses it states.  `sdm`,
  `xen_h`, `sdm_mcg`, `sdm_cmci` and `sdm_msr` give one instantiation, used to evaluate
  examples.
* The static `ser_support` is an explicit argument; `intel_init_mca` works on
  the record `mca_caps` of the five capability variables.
* The bank ownership protocol works on `cmci_state`; its passes are functions
  on that state and `cmci_reachable` is the step relation of serialized passes.
* Calls to collaborators outside the file are answered by an `extern_env`
  and logged, in call order, in a trace of `event`s.  `BUG_ON` and `ASSERT`
  stops are recorded in the `defect` field of the handler state.
* Function pointers in the dispatch tables are names (`check_fn`,
  `handler_fn`) interpreted by `call_check` and `call_handler`.
-/

namespace MceIntel

/-! ## Header constants -/

/-- Masks of `x86_mca.h` used by the file (bits of `IA32_MCi_STATUS` and the
address-mode field of `IA32_MCi_MISC`).  The header is not part of the source
tree, so the values are parameters. -/
structure x86_mca_h where
  MCi_STATUS_VAL : Nat
  MCi_STATUS_OVER : Nat
  MCi_STATUS_UC : Nat
  MCi_STATUS_EN : Nat
  MCi_STATUS_MISCV : Nat
  MCi_STATUS_ADDRV : Nat
  MCi_STATUS_PCC : Nat
  MCi_STATUS_S : Nat
  MCi_STATUS_AR : Nat
  MCi_MISC_ADDRMOD_MASK : Nat
  MCi_MISC_PHYSMOD : Nat

/-- One instantiation of `x86_mca_h`: the architectural layout of
`IA32_MCi_STATUS` (VAL = bit 63, OVER = 62, UC = 61, EN = 60, MISCV = 59,
ADDRV = 58, PCC = 57, S = 56, AR = 55) and of the `IA32_MCi_MISC` address
mode (bits 8:6, physical = 2). -/
def sdm : x86_mca_h where
  MCi_STATUS_VAL := 0x8000000000000000
  MCi_STATUS_OVER := 0x4000000000000000
  MCi_STATUS_UC := 0x2000000000000000
  MCi_STATUS_EN := 0x1000000000000000
  MCi_STATUS_MISCV := 0x0800000000000000
  MCi_STATUS_ADDRV := 0x0400000000000000
  MCi_STATUS_PCC := 0x0200000000000000
  MCi_STATUS_S := 0x0100000000000000
  MCi_STATUS_AR := 0x0080000000000000
  MCi_MISC_ADDRMOD_MASK := 7 <<< 6
  MCi_MISC_PHYSMOD := 2 <<< 6

/-- Mask of the machine-check error code, bits 15..0 of the status:
`#define INTEL_MCCOD_MASK 0xFFFF`. -/
def INTEL_MCCOD_MASK : Nat := 0xFFFF

/-- Memory scrubbing error codes, a GNU case range:
`#define INTEL_SRAO_MEM_SCRUB 0xC0 ... 0xCF`. -/
def INTEL_SRAO_MEM_SCRUB (code : Nat) : Bool := decide (0xC0 ≤ code) && decide (code ≤ 0xCF)

/-- L3 explicit writeback error code: `#define INTEL_SRAO_L3_EWB 0x17A`. -/
def INTEL_SRAO_L3_EWB : Nat := 0x17A

/-- Data load error code: `#define INTEL_SRAR_DATA_LOAD 0x134`. -/
def INTEL_SRAR_DATA_LOAD : Nat := 0x134

/-- Instruction fetch error code: `#define INTEL_SRAR_INSTR_FETCH 0x150`. -/
def INTEL_SRAR_INSTR_FETCH : Nat := 0x150

/-! ## Status classifier -/

/-- The classifier verdict, `enum intel_mce_type`. -/
inductive intel_mce_type where
  | intel_mce_invalid
  | intel_mce_fatal
  | intel_mce_corrected
  | intel_mce_ucr_ucna
  | intel_mce_ucr_srao
  | intel_mce_ucr_srar
deriving DecidableEq

open intel_mce_type

/-- The statements of `intel_check_mce_type` that precede its trailing
`return intel_mce_fatal;`: `some t` when one of them executes `return t`,
`none` when control would fall through to the trailing return. -/
def intel_check_mce_type_body (k : x86_mca_h) (ser_support : Bool) (status : Nat) :
    Option intel_mce_type :=
  if status &&& k.MCi_STATUS_VAL = 0 then some intel_mce_invalid
  else if status &&& k.MCi_STATUS_PCC ≠ 0 then some intel_mce_fatal
  else if status &&& k.MCi_STATUS_UC = 0 then some intel_mce_corrected
  else if ser_support = false then some intel_mce_fatal
  else if status &&& k.MCi_STATUS_S ≠ 0 then
    if status &&& k.MCi_STATUS_AR ≠ 0 then
      if status &&& k.MCi_STATUS_OVER ≠ 0 then some intel_mce_fatal
      else some intel_mce_ucr_srar
    else some intel_mce_ucr_srao
  else some intel_mce_ucr_ucna

/-- The classifier `intel_check_mce_type(uint64_t status)`: the body, then the
trailing `return intel_mce_fatal;`. -/
def intel_check_mce_type (k : x86_mca_h) (ser_support : Bool) (status : Nat) : intel_mce_type :=
  match intel_check_mce_type_body k ser_support status with
  | some t => t
  | none => intel_mce_fatal

/-- The six-step priority procedure of the specification (§4.1), written
over the flags it names, first match wins. -/
def classify_spec (valid pcc uc ser s ar over : Bool) : intel_mce_type :=
  if !valid then intel_mce_invalid
  else if pcc then intel_mce_fatal
  else if !uc then intel_mce_corrected
  else if !ser then intel_mce_fatal
  else if s then
    (if ar then (if over then intel_mce_fatal else intel_mce_ucr_srar)
     else intel_mce_ucr_srao)
  else intel_mce_ucr_ucna

/-- A flag of a status word is set: the C test `status & mask`. -/
def flag (status mask : Nat) : Bool := decide (status &&& mask ≠ 0)

/-! ## Data model of the handlers -/

/-- Constants of `public/sysctl.h`, `public/xen.h`, `public/arch-x86/xen-mca.h`
and `asm/page.h` used by the recovery handler.  The headers are not part of the
source tree, so the values are parameters. -/
structure memerr_h where
  PAGE_SHIFT : Nat
  PG_OFFLINE_OFFLINED : Nat
  PG_OFFLINE_AGAIN : Nat
  PG_OFFLINE_PENDING : Nat
  PG_OFFLINE_OWNED : Nat
  PG_OFFLINE_OWNER_SHIFT : Nat
  DOMID_XEN : Nat
  DOMID_COW : Nat
  MCINFO_FLAGS_UNCOMPLETE : Nat
  MC_ACTION_PAGE_OFFLINE : Nat

/-- One instantiation of `memerr_h`: 4 KiB pages, the page-offline status
bits of the sysctl interface, and the reserved domain identifiers. -/
def xen_h : memerr_h where
  PAGE_SHIFT := 12
  PG_OFFLINE_OFFLINED := 1 <<< 1
  PG_OFFLINE_AGAIN := 1 <<< 4
  PG_OFFLINE_PENDING := 1 <<< 2
  PG_OFFLINE_OWNED := 1 <<< 12
  PG_OFFLINE_OWNER_SHIFT := 16
  DOMID_XEN := 0x7FF2
  DOMID_COW := 0x7FF3
  MCINFO_FLAGS_UNCOMPLETE := 1
  MC_ACTION_PAGE_OFFLINE := 1

/-- Page size in bytes, `1 << PAGE_SHIFT`. -/
def PAGE_SIZE (m : memerr_h) : Nat := 1 <<< m.PAGE_SHIFT

/-- Outcome of a handler, `enum mce_result` (the values the file assigns). -/
inductive mce_result where
  | MCER_RECOVERED
  | MCER_CONTINUE
  | MCER_RESET
deriving DecidableEq

open mce_result

/-- The field of `struct mcinfo_global` the file reads. -/
structure mcinfo_global where
  mc_gstatus : Nat
deriving DecidableEq

/-- The fields of `struct mcinfo_bank` the file reads or writes. -/
structure mcinfo_bank where
  mc_status : Nat
  mc_addr : Nat
  mc_misc : Nat
  mc_domid : Nat
deriving DecidableEq

/-- The fields of `struct mcinfo_recovery` that `mci_add_pageoff_action` sets
(`mfn` and `status` are `action_info.page_retire.mfn` and `.status`). -/
structure mcinfo_recovery where
  mc_bank : Nat
  action_types : Nat
  mfn : Nat
  status : Nat
deriving DecidableEq

/-- The report `struct mc_info`: its flags and the recovery records reserved
in it so far, oldest first. -/
structure mc_info where
  flags : Nat
  recovery : List mcinfo_recovery
deriving DecidableEq

/-- The bank observation `struct mca_binfo`; `mi` is a nullable pointer. -/
structure mca_binfo where
  bank : Nat
  mig : mcinfo_global
  mib : mcinfo_bank
  mi : Option mc_info
deriving DecidableEq

/-- The field of `struct domain` the file reads. -/
structure domain where
  domain_id : Nat
deriving DecidableEq

/-- Names of the predicate functions stored in the dispatch tables. -/
inductive check_fn where
  | intel_srao_check
  | intel_srar_check
  | intel_default_check
deriving DecidableEq

/-- Names of the handler functions stored in the dispatch tables. -/
inductive handler_fn where
  | intel_srao_dhandler
  | intel_srar_dhandler
  | intel_default_mce_dhandler
  | intel_default_mce_uhandler
deriving DecidableEq

/-- A table entry, `struct mca_error_handler`. -/
structure mca_error_handler where
  owned_error : check_fn
  recovery_handler : handler_fn
deriving DecidableEq

/-- Answers of the collaborators outside the file.
`offline_page mfn broken` gives the return value and the word written through
the status pointer; `x86_mcinfo_reserve mi` tells whether the report has room
for one more record; the integer results are the C return values. -/
structure extern_env where
  offline_page : Nat → Nat → Int × Nat
  x86_mcinfo_reserve : mc_info → Bool
  get_domain_by_id : Nat → Option domain
  get_gpfn_from_mfn : Nat → Nat
  is_vmce_ready : mcinfo_bank → domain → Bool
  unmmap_broken_page : domain → Nat → Nat → Int
  fill_vmsr_data : mcinfo_bank → domain → Nat → Int
  inject_vmce : domain → Int

/-- Calls observed during a handler run, in call order: entry into
`intel_memerr_dhandler`, the handler invoked by table dispatch, and every call
to the page-lifecycle and virtualization collaborators with its arguments. -/
inductive event where
  | recovery_handler (h : handler_fn)
  | memerr_enter
  | offline_page (mfn broken : Nat)
  | get_domain_by_id (domid : Nat)
  | get_gpfn_from_mfn (mfn : Nat)
  | is_vmce_ready (d : domain)
  | unmmap_broken_page (d : domain) (mfn gfn : Nat)
  | fill_vmsr_data (d : domain) (mc_addr gstatus : Nat)
  | inject_vmce (d : domain)
  | put_domain (d : domain)
  | domain_crash (d : domain)
deriving DecidableEq

/-- Defect stops of the recovery handler: `BUG_ON(mc_domid == DOMID_COW)` and
`ASSERT(d)`. -/
inductive defect where
  | bug_on_domid_cow
  | assert_domain
deriving DecidableEq

/-- State threaded through a handler: the bank observation (with the bank and
report it points to), the value of `*result`, the calls made so far and the
defect stop reached, if any. -/
structure hstate where
  binfo : mca_binfo
  result : mce_result
  trace : List event
  defect : Option defect
deriving DecidableEq

/-- State at handler entry: nothing called yet, `*result` as left by the caller. -/
def hstate.init (binfo : mca_binfo) (result : mce_result) : hstate :=
  { binfo := binfo, result := result, trace := [], defect := none }

/-! ## Recovery action builder -/

/-- The record builder `mci_add_pageoff_action(bank, mi, mfn, status)`: the
record written (`NULL` as `none`) and the report afterwards. -/
def mci_add_pageoff_action (m : memerr_h) (env : extern_env) (bank : Nat)
    (mi : Option mc_info) (mfn status : Nat) : Option mcinfo_recovery × Option mc_info :=
  match mi with
  | none => (none, none)
  | some i =>
    if env.x86_mcinfo_reserve i = false then
      (none, some { i with flags := i.flags ||| m.MCINFO_FLAGS_UNCOMPLETE })
    else
      let rec_ : mcinfo_recovery :=
        { mc_bank := bank, action_types := m.MC_ACTION_PAGE_OFFLINE, mfn := mfn, status := status }
      (some rec_, some { i with recovery := i.recovery ++ [rec_] })

/-- The label `vmce_failed:` of `intel_memerr_dhandler`: `put_domain(d);
domain_crash(d);`, after which the function ends. -/
def vmce_failed (d : domain) (s : hstate) : hstate :=
  { s with trace := s.trace ++ [event.put_domain d, event.domain_crash d] }

/-- The guest-notification block of `intel_memerr_dhandler`, entered when the
page is pending and owned; `status` is the 32-bit offline status and `mfn` the
frame computed before the retirement request.  The owner is stored in the 16-bit
field `mc_domid`; `gfn` is an `unsigned long`, so `gfn << PAGE_SHIFT` wraps at
64 bits. -/
def memerr_notify (m : memerr_h) (env : extern_env) (status mfn : Nat) (s : hstate) : hstate :=
  let domid := (status >>> m.PG_OFFLINE_OWNER_SHIFT) % 2 ^ 16
  let bank : mcinfo_bank := { s.binfo.mib with mc_domid := domid }
  let s : hstate := { s with binfo := { s.binfo with mib := bank } }
  if domid = m.DOMID_COW then { s with defect := some defect.bug_on_domid_cow }
  else if domid ≠ m.DOMID_XEN then
    let s : hstate := { s with trace := s.trace ++ [event.get_domain_by_id domid] }
    match env.get_domain_by_id domid with
    | none => { s with defect := some defect.assert_domain }
    | some d =>
      let gfn := env.get_gpfn_from_mfn (bank.mc_addr >>> m.PAGE_SHIFT) % 2 ^ 64
      let s : hstate :=
        { s with trace := s.trace ++ [event.get_gpfn_from_mfn (bank.mc_addr >>> m.PAGE_SHIFT),
                                       event.is_vmce_ready d] }
      if env.is_vmce_ready bank d = false then vmce_failed d s
      else
        let s : hstate := { s with trace := s.trace ++ [event.unmmap_broken_page d mfn gfn] }
        if env.unmmap_broken_page d mfn gfn ≠ 0 then vmce_failed d s
        else
          let addr := ((gfn <<< m.PAGE_SHIFT) % 2 ^ 64) ||| (bank.mc_addr &&& (PAGE_SIZE m - 1))
          let bank : mcinfo_bank := { bank with mc_addr := addr }
          let s : hstate :=
            { s with binfo := { s.binfo with mib := bank },
                     trace := s.trace ++ [event.fill_vmsr_data d addr s.binfo.mig.mc_gstatus] }
          if env.fill_vmsr_data bank d s.binfo.mig.mc_gstatus = -1 then vmce_failed d s
          else
            let s : hstate := { s with trace := s.trace ++ [event.inject_vmce d] }
            if env.inject_vmce d < 0 then vmce_failed d s
            else { s with result := MCER_RECOVERED, trace := s.trace ++ [event.put_domain d] }
  else s

/-- The recovery action builder `intel_memerr_dhandler(binfo, result, regs)`. -/
def intel_memerr_dhandler (k : x86_mca_h) (m : memerr_h) (env : extern_env) (s : hstate) :
    hstate :=
  let bank := s.binfo.mib
  let s : hstate := { s with trace := s.trace ++ [event.memerr_enter] }
  let mc_status := bank.mc_status
  let mc_misc := bank.mc_misc
  if mc_status &&& k.MCi_STATUS_ADDRV = 0 ∨ mc_status &&& k.MCi_STATUS_MISCV = 0 ∨
      mc_misc &&& k.MCi_MISC_ADDRMOD_MASK ≠ k.MCi_MISC_PHYSMOD then s
  else
    let mfn := bank.mc_addr >>> m.PAGE_SHIFT
    let s : hstate := { s with trace := s.trace ++ [event.offline_page mfn 1] }
    if (env.offline_page mfn 1).1 ≠ 0 then s
    else
      let status := (env.offline_page mfn 1).2 % 2 ^ 32
      let mi := (mci_add_pageoff_action m env s.binfo.bank s.binfo.mi mfn status).2
      let s : hstate := { s with binfo := { s.binfo with mi := mi } }
      if status &&& m.PG_OFFLINE_OFFLINED ≠ 0 then { s with result := MCER_RECOVERED }
      else if status &&& m.PG_OFFLINE_AGAIN ≠ 0 then { s with result := MCER_CONTINUE }
      else if status &&& m.PG_OFFLINE_PENDING ≠ 0 then
        if status &&& m.PG_OFFLINE_OWNED ≠ 0 then memerr_notify m env status mfn s
        else s
      else s

/-! ## Dispatch tables and their handlers -/

/-- The predicate `intel_srar_check(status)`, a C truth value. -/
def intel_srar_check (k : x86_mca_h) (ser_support : Bool) (status : Nat) : Nat :=
  if intel_check_mce_type k ser_support status = intel_mce_ucr_srar then 1 else 0

/-- The handler `intel_srar_dhandler(binfo, result, regs)`. -/
def intel_srar_dhandler (k : x86_mca_h) (m : memerr_h) (env : extern_env) (s : hstate) :
    hstate :=
  let status := s.binfo.mib.mc_status
  let s : hstate := { s with result := MCER_RESET }
  let code := status &&& INTEL_MCCOD_MASK
  if code = INTEL_SRAR_DATA_LOAD ∨ code = INTEL_SRAR_INSTR_FETCH then
    intel_memerr_dhandler k m env s
  else s

/-- The predicate `intel_srao_check(status)`, a C truth value. -/
def intel_srao_check (k : x86_mca_h) (ser_support : Bool) (status : Nat) : Nat :=
  if intel_check_mce_type k ser_support status = intel_mce_ucr_srao then 1 else 0

/-- The handler `intel_srao_dhandler(binfo, result, regs)`. -/
def intel_srao_dhandler (k : x86_mca_h) (m : memerr_h) (env : extern_env) (s : hstate) :
    hstate :=
  let status := s.binfo.mib.mc_status
  let s : hstate := { s with result := MCER_CONTINUE }
  if status &&& k.MCi_STATUS_VAL ≠ 0 then
    let code := status &&& INTEL_MCCOD_MASK
    if INTEL_SRAO_MEM_SCRUB code = true ∨ code = INTEL_SRAO_L3_EWB then
      intel_memerr_dhandler k m env s
    else s
  else s

/-- The predicate `intel_default_check(status)`: `return 1;`. -/
def intel_default_check (_status : Nat) : Nat := 1

/-- The handler `intel_default_mce_dhandler(binfo, result, regs)`. -/
def intel_default_mce_dhandler (k : x86_mca_h) (ser_support : Bool) (s : hstate) : hstate :=
  let status := s.binfo.mib.mc_status
  let type := intel_check_mce_type k ser_support status
  if type = intel_mce_fatal then { s with result := MCER_RESET }
  else { s with result := MCER_CONTINUE }

/-- The table `intel_mce_dhandlers[]`. -/
def intel_mce_dhandlers : List mca_error_handler :=
  [ { owned_error := check_fn.intel_srao_check, recovery_handler := handler_fn.intel_srao_dhandler },
    { owned_error := check_fn.intel_srar_check, recovery_handler := handler_fn.intel_srar_dhandler },
    { owned_error := check_fn.intel_default_check,
      recovery_handler := handler_fn.intel_default_mce_dhandler } ]

/-- The handler `intel_default_mce_uhandler(binfo, result, regs)`. -/
def intel_default_mce_uhandler (k : x86_mca_h) (ser_support : Bool) (s : hstate) : hstate :=
  let status := s.binfo.mib.mc_status
  let type := intel_check_mce_type k ser_support status
  match type with
  | intel_mce_fatal => { s with result := MCER_RESET }
  | _ => { s with result := MCER_CONTINUE }

/-- The table `intel_mce_uhandlers[]`. -/
def intel_mce_uhandlers : List mca_error_handler :=
  [ { owned_error := check_fn.intel_default_check,
      recovery_handler := handler_fn.intel_default_mce_uhandler } ]

/-- Call through the function pointer `owned_error`. -/
def call_check (k : x86_mca_h) (ser_support : Bool) : check_fn → Nat → Nat
  | check_fn.intel_srao_check => intel_srao_check k ser_support
  | check_fn.intel_srar_check => intel_srar_check k ser_support
  | check_fn.intel_default_check => intel_default_check

/-- Call through the function pointer `recovery_handler`. -/
def call_handler (k : x86_mca_h) (m : memerr_h) (ser_support : Bool) (env : extern_env) :
    handler_fn → hstate → hstate
  | handler_fn.intel_srao_dhandler => intel_srao_dhandler k m env
  | handler_fn.intel_srar_dhandler => intel_srar_dhandler k m env
  | handler_fn.intel_default_mce_dhandler => intel_default_mce_dhandler k ser_support
  | handler_fn.intel_default_mce_uhandler => intel_default_mce_uhandler k ser_support

/-- Modelled from the spec: the loop that consults a dispatch table for one
bank.  Its code (the caller that the tables are registered with, in `mce.c`)
is not part of the source tree.  Spec §4.3: each entry's predicate is
evaluated against the raw status; the first predicate returning true has its
handler invoked and no further entries are tried.  The invocation is logged as
`event.recovery_handler`. -/
def mce_dispatch (k : x86_mca_h) (m : memerr_h) (ser_support : Bool) (env : extern_env) :
    List mca_error_handler → hstate → hstate
  | [], s => s
  | e :: rest, s =>
    if call_check k ser_support e.owned_error s.binfo.mib.mc_status ≠ 0 then
      call_handler k m ser_support env e.recovery_handler
        { s with trace := s.trace ++ [event.recovery_handler e.recovery_handler] }
    else mce_dispatch k m ser_support env rest s

/-- The handlers invoked by table dispatch, read off a trace. -/
def handlers_run (tr : List event) : List handler_fn :=
  tr.filterMap fun e => match e with
    | event.recovery_handler h => some h
    | _ => none

/-- The frames for which page retirement was requested, read off a trace. -/
def offline_requests (tr : List event) : List Nat :=
  tr.filterMap fun e => match e with
    | event.offline_page mfn _ => some mfn
    | _ => none

/-- An event that looks up, notifies, unmaps from or terminates a consumer. -/
def consumer_event : event → Bool
  | event.get_domain_by_id _ => true
  | event.get_gpfn_from_mfn _ => true
  | event.is_vmce_ready _ => true
  | event.unmmap_broken_page _ _ _ => true
  | event.fill_vmsr_data _ _ _ => true
  | event.inject_vmce _ => true
  | event.put_domain _ => true
  | event.domain_crash _ => true
  | _ => false

/-! ## Bank-clear policy -/

/-- The scan context `enum mca_source` (declared in `mce.h`); the file names
`MCA_CMCI_HANDLER`, `MCA_RESET` and `MCA_MCE_SCAN`. -/
inductive mca_source where
  | MCA_POLLER
  | MCA_CMCI_HANDLER
  | MCA_RESET
  | MCA_MCE_SCAN
deriving DecidableEq

/-- The clear policy `intel_need_clearbank_scan(who, status)`, a C truth value. -/
def intel_need_clearbank_scan (k : x86_mca_h) (ser_support : Bool) (who : mca_source)
    (status : Nat) : Nat :=
  if who = mca_source.MCA_CMCI_HANDLER then
    if status &&& k.MCi_STATUS_UC = 0 then 1
    else if ser_support = true ∧ status &&& k.MCi_STATUS_OVER = 0 ∧
        status &&& k.MCi_STATUS_EN = 0 then 1
    else if ser_support = true ∧ status &&& k.MCi_STATUS_OVER = 0 ∧
        status &&& k.MCi_STATUS_PCC = 0 ∧ status &&& k.MCi_STATUS_S = 0 ∧
        status &&& k.MCi_STATUS_AR = 0 then 1
    else 0
  else if who = mca_source.MCA_MCE_SCAN then
    if ser_support = false then 0
    else if status &&& k.MCi_STATUS_UC ≠ 0 ∧ status &&& k.MCi_STATUS_PCC ≠ 0 then 0
    else if status &&& k.MCi_STATUS_OVER = 0 ∧ status &&& k.MCi_STATUS_UC ≠ 0 ∧
        status &&& k.MCi_STATUS_EN = 0 then 1
    else if status &&& k.MCi_STATUS_UC ≠ 0 ∧ status &&& k.MCi_STATUS_S ≠ 0 ∧
        status &&& k.MCi_STATUS_AR ≠ 0 ∧ status &&& k.MCi_STATUS_OVER = 0 then 1
    else if status &&& k.MCi_STATUS_AR = 0 ∧ status &&& k.MCi_STATUS_S ≠ 0 ∧
        status &&& k.MCi_STATUS_UC ≠ 0 then 1
    else 0
  else 1

/-! ## Capability discovery -/

/-- Constants of `x86_mca.h` and `asm/processor.h` used by `intel_init_mca` and
`mce_is_broadcast`: bits and the extended-register count position of
`IA32_MCG_CAP`, and the vendor code.  The headers are not part of the source
tree, so the values are parameters. -/
structure mcg_cap_h where
  MCG_CMCI_P : Nat
  MCG_SER_P : Nat
  MCG_EXT_P : Nat
  MCG_EXT_CNT : Nat
  X86_VENDOR_INTEL : Nat

/-- One instantiation of `mcg_cap_h`: the architectural layout of `IA32_MCG_CAP`
(CMCI_P = bit 10, EXT_P = bit 9, EXT_CNT = bits 23:16, SER_P = bit 24). -/
def sdm_mcg : mcg_cap_h where
  MCG_CMCI_P := 1 <<< 10
  MCG_SER_P := 1 <<< 24
  MCG_EXT_P := 1 <<< 9
  MCG_EXT_CNT := 16
  X86_VENDOR_INTEL := 0

/-- The fields of `struct cpuinfo_x86` the file reads. -/
structure cpuinfo_x86 where
  x86_vendor : Nat
  x86 : Nat
  x86_model : Nat
deriving DecidableEq

/-- The five process-wide capability variables written by `intel_init_mca`. -/
structure mca_caps where
  mce_broadcast : Bool
  cmci_support : Bool
  ser_support : Bool
  nr_intel_ext_msrs : Nat
  firstbank : Int
deriving DecidableEq

/-- The predicate `mce_is_broadcast(c)`, a C truth value. -/
def mce_is_broadcast (h : mcg_cap_h) (mce_force_broadcast : Bool) (c : cpuinfo_x86) : Nat :=
  if mce_force_broadcast = true then 1
  else if c.x86_vendor = h.X86_VENDOR_INTEL ∧ c.x86 = 6 ∧ c.x86_model ≥ 0xe then 1
  else 0

/-- The values `intel_init_mca` derives locally (`broadcast`, `cmci`, `ser`,
`ext_num`, `first`) from the capability register `msr_content`; `first` is the
result of the collaborator `mce_firstbank(c)`. -/
def intel_init_mca_local (h : mcg_cap_h) (mce_force_broadcast cpu_has_apic : Bool)
    (first : Int) (msr_content : Nat) (c : cpuinfo_x86) : mca_caps :=
  { mce_broadcast := decide (mce_is_broadcast h mce_force_broadcast c ≠ 0),
    cmci_support := decide (msr_content &&& h.MCG_CMCI_P ≠ 0 ∧ cpu_has_apic = true),
    ser_support := decide (msr_content &&& h.MCG_SER_P ≠ 0),
    nr_intel_ext_msrs :=
      if msr_content &&& h.MCG_EXT_P ≠ 0 then (msr_content >>> h.MCG_EXT_CNT) &&& 0xff else 0,
    firstbank := first }

/-- The initialiser `intel_init_mca(c)` run on processor `smp_processor_id` with
capability register value `msr_content`: the capability variables afterwards and
whether the mismatch warning was printed. -/
def intel_init_mca (h : mcg_cap_h) (mce_force_broadcast cpu_has_apic : Bool) (first : Int)
    (smp_processor_id : Nat) (msr_content : Nat) (c : cpuinfo_x86) (g : mca_caps) :
    mca_caps × Bool :=
  let l := intel_init_mca_local h mce_force_broadcast cpu_has_apic first msr_content c
  if smp_processor_id = 0 then
    ({ mce_broadcast := l.mce_broadcast, cmci_support := l.cmci_support,
       ser_support := l.ser_support, nr_intel_ext_msrs := l.nr_intel_ext_msrs,
       firstbank := l.firstbank }, false)
  else if l.cmci_support ≠ g.cmci_support ∨ l.ser_support ≠ g.ser_support ∨
      l.mce_broadcast ≠ g.mce_broadcast ∨ l.firstbank ≠ g.firstbank ∨
      l.nr_intel_ext_msrs ≠ g.nr_intel_ext_msrs then (g, true)
  else (g, false)

/-! ## Bank ownership (CMCI) -/

/-- Constants of `x86_mca.h` and `mce_intel.h` for the bank interrupt-control
register `IA32_MCi_CTL2`.  The headers are not part of the source tree, so the
values are parameters. -/
structure cmci_h where
  CMCI_EN : Nat
  CMCI_THRESHOLD : Nat
  CMCI_THRESHOLD_MASK : Nat

/-- One instantiation of `cmci_h`: the architectural layout of `IA32_MCi_CTL2`
(enable = bit 30, threshold = bits 14:0) and a threshold of 2. -/
def sdm_cmci : cmci_h where
  CMCI_EN := 1 <<< 30
  CMCI_THRESHOLD := 2
  CMCI_THRESHOLD_MASK := 0x7fff

/-- The C operator `~` on a 64-bit operand. -/
def not64 (x : Nat) : Nat := (2 ^ 64 - 1) ^^^ (x % 2 ^ 64)

/-- The state the ownership protocol works on: the interrupt-control register
`IA32_MCi_CTL2` of each bank, shared by all processors, and the per-processor
bank sets `mce_banks_owned` and `no_cmci_banks`, indexed by processor id.  The
bitmap macros `mcabanks_set`, `mcabanks_clear` and `mcabanks_test` of `mce.h` are
insertion, removal and membership. -/
structure cmci_state where
  ctl2 : Nat → Nat
  mce_banks_owned : Nat → Finset Nat
  no_cmci_banks : Nat → Finset Nat

/-- Modelled from the spec: the value a later `rdmsrl` finds after
`wrmsrl(MSR_IA32_MCx_CTL2(i), v)`; the macros of `asm/msr.h` and the hardware
behind them are not part of the source tree.  Spec §4.5: enabling interrupt
delivery succeeds on a bank that supports threshold interrupts and is refused by
one that does not.  Here a bank that supports them (`capable i`) retains the
value written, and a bank that does not support them does not retain `CMCI_EN`. -/
def wrmsr_ctl2 (c : cmci_h) (capable : Nat → Bool) (i v : Nat) : Nat :=
  if capable i = true then v else v &&& not64 c.CMCI_EN

/-- The bank probe `do_cmci_discover(i)` run on processor `cpu`: its return value
and the state afterwards. -/
def do_cmci_discover (c : cmci_h) (capable : Nat → Bool) (cpu i : Nat) (s : cmci_state) :
    Nat × cmci_state :=
  let val := s.ctl2 i
  if val &&& c.CMCI_EN ≠ 0 then
    (1, { s with
          mce_banks_owned :=
            Function.update s.mce_banks_owned cpu ((s.mce_banks_owned cpu).erase i),
          no_cmci_banks := Function.update s.no_cmci_banks cpu ((s.no_cmci_banks cpu).erase i) })
  else
    let val := val &&& not64 c.CMCI_THRESHOLD_MASK
    let s : cmci_state :=
      { s with
        ctl2 := Function.update s.ctl2 i
          (wrmsr_ctl2 c capable i (val ||| c.CMCI_EN ||| c.CMCI_THRESHOLD)) }
    let val := s.ctl2 i
    if val &&& c.CMCI_EN = 0 then
      (0, { s with
            no_cmci_banks :=
              Function.update s.no_cmci_banks cpu (insert i (s.no_cmci_banks cpu)) })
    else
      (1, { s with
            mce_banks_owned :=
              Function.update s.mce_banks_owned cpu (insert i (s.mce_banks_owned cpu)),
            no_cmci_banks :=
              Function.update s.no_cmci_banks cpu ((s.no_cmci_banks cpu).erase i) })

/-- One iteration of the loop of `cmci_discover` on processor `cpu`:
`if (!mcabanks_test(i, mce_banks_owned)) do_cmci_discover(i);`. -/
def cmci_discover_step (c : cmci_h) (capable : Nat → Bool) (cpu : Nat) (s : cmci_state)
    (i : Nat) : cmci_state :=
  if i ∈ s.mce_banks_owned cpu then s else (do_cmci_discover c capable cpu i s).2

/-- The discovery pass of `cmci_discover` on processor `cpu`: the loop over the
banks `0 .. nr_mce_banks - 1`, run under `cmci_discover_lock`.  The scan and
telemetry that follow the loop do not touch this state. -/
def cmci_discover (c : cmci_h) (capable : Nat → Bool) (nr_mce_banks cpu : Nat)
    (s : cmci_state) : cmci_state :=
  (List.range nr_mce_banks).foldl (cmci_discover_step c capable cpu) s

/-- One iteration of the loop of `clear_cmci` on processor `cpu`. -/
def clear_cmci_step (c : cmci_h) (capable : Nat → Bool) (cpu : Nat) (s : cmci_state)
    (i : Nat) : cmci_state :=
  if i ∉ s.mce_banks_owned cpu then s
  else
    let val := s.ctl2 i
    let s : cmci_state :=
      if val &&& (c.CMCI_EN ||| c.CMCI_THRESHOLD_MASK) ≠ 0 then
        { s with
          ctl2 := Function.update s.ctl2 i
            (wrmsr_ctl2 c capable i (val &&& not64 (c.CMCI_EN ||| c.CMCI_THRESHOLD_MASK))) }
      else s
    { s with
      mce_banks_owned := Function.update s.mce_banks_owned cpu ((s.mce_banks_owned cpu).erase i) }

/-- The release pass `clear_cmci()` run on processor `cpu`. -/
def clear_cmci (c : cmci_h) (capable : Nat → Bool) (cmci_support : Bool) (mce_disabled : Int)
    (nr_mce_banks cpu : Nat) (s : cmci_state) : cmci_state :=
  if cmci_support = false ∨ mce_disabled = 1 then s
  else (List.range nr_mce_banks).foldl (clear_cmci_step c capable cpu) s

/-- A starting state: no bank has `CMCI_EN` set and no processor owns a bank. -/
def cmci_initial (c : cmci_h) (s : cmci_state) : Prop :=
  (∀ i, s.ctl2 i &&& c.CMCI_EN = 0) ∧ ∀ cpu, s.mce_banks_owned cpu = ∅

/-- The states reached from a starting state by serialized discovery passes and
release passes, each on any processor. -/
inductive cmci_reachable (c : cmci_h) (capable : Nat → Bool) (cmci_support : Bool)
    (mce_disabled : Int) (nr_mce_banks : Nat) : cmci_state → Prop where
  | init (s : cmci_state) (h : cmci_initial c s) :
      cmci_reachable c capable cmci_support mce_disabled nr_mce_banks s
  | discover (cpu : Nat) (s : cmci_state)
      (h : cmci_reachable c capable cmci_support mce_disabled nr_mce_banks s) :
      cmci_reachable c capable cmci_support mce_disabled nr_mce_banks
        (cmci_discover c capable nr_mce_banks cpu s)
  | clear (cpu : Nat) (s : cmci_state)
      (h : cmci_reachable c capable cmci_support mce_disabled nr_mce_banks s) :
      cmci_reachable c capable cmci_support mce_disabled nr_mce_banks
        (clear_cmci c capable cmci_support mce_disabled nr_mce_banks cpu s)

/-- The ownership invariant for bank `i`: an owner implies `CMCI_EN` set, at most
one processor owns the bank, and `CMCI_EN` set implies an owner. -/
def bank_inv (c : cmci_h) (s : cmci_state) (i : Nat) : Prop :=
  (∀ cpu, i ∈ s.mce_banks_owned cpu → s.ctl2 i &&& c.CMCI_EN ≠ 0) ∧
    (∀ cpu1 cpu2, i ∈ s.mce_banks_owned cpu1 → i ∈ s.mce_banks_owned cpu2 → cpu1 = cpu2) ∧
    (s.ctl2 i &&& c.CMCI_EN ≠ 0 → ∃ cpu, i ∈ s.mce_banks_owned cpu)

/-! ## Recoverability predicate -/

/-- The recoverability predicate `intel_recoverable_scan(status)`, a C truth
value. -/
def intel_recoverable_scan (k : x86_mca_h) (ser_support : Bool) (status : Nat) : Nat :=
  if status &&& k.MCi_STATUS_UC = 0 then 1
  else if ser_support = true ∧ status &&& k.MCi_STATUS_EN = 0 ∧
      status &&& k.MCi_STATUS_OVER = 0 then 1
  else if ser_support = true ∧ status &&& k.MCi_STATUS_OVER = 0 ∧
      status &&& k.MCi_STATUS_PCC = 0 ∧ status &&& k.MCi_STATUS_S ≠ 0 ∧
      status &&& k.MCi_STATUS_AR ≠ 0 ∧ status &&& k.MCi_STATUS_EN ≠ 0 then 1
  else if ser_support = true ∧ status &&& k.MCi_STATUS_PCC = 0 ∧
      status &&& k.MCi_STATUS_S ≠ 0 ∧ status &&& k.MCi_STATUS_AR = 0 ∧
      status &&& k.MCi_STATUS_EN ≠ 0 then 1
  else if ser_support = true ∧ status &&& k.MCi_STATUS_OVER = 0 ∧
      status &&& k.MCi_STATUS_EN ≠ 0 ∧ status &&& k.MCi_STATUS_PCC = 0 ∧
      status &&& k.MCi_STATUS_S = 0 ∧ status &&& k.MCi_STATUS_AR = 0 then 1
  else 0

/-! ## Guest register guards -/

/-- Constants and the register-address macro of `asm/msr-index.h` and
`x86_mca.h` used by the guest register guards: the address of `IA32_MC0_CTL2`,
the macro `MSR_IA32_MCx_CTL2(x)` and the bank-count mask of `IA32_MCG_CAP`.  The
headers are not part of the source tree, so they are parameters. -/
structure msr_h where
  MSR_IA32_MC0_CTL2 : Nat
  MSR_IA32_MCx_CTL2 : Nat → Nat
  MCG_CAP_COUNT : Nat

/-- One instantiation of `msr_h`: `IA32_MC0_CTL2` at 0x280, the control
register of bank `x` at `0x280 + x`, and the bank count in bits 7:0. -/
def sdm_msr : msr_h where
  MSR_IA32_MC0_CTL2 := 0x280
  MSR_IA32_MCx_CTL2 := fun x => 0x280 + x
  MCG_CAP_COUNT := 0xff

/-- The field of `struct vcpu` the guards read, `arch.mcg_cap`. -/
structure vcpu where
  mcg_cap : Nat
deriving DecidableEq

/-- The write guard `intel_mce_wrmsr(v, msr, val)`: its return value. -/
def intel_mce_wrmsr (h : msr_h) (v : vcpu) (msr _val : Nat) : Nat :=
  if msr ≥ h.MSR_IA32_MC0_CTL2 ∧ msr < h.MSR_IA32_MCx_CTL2 (v.mcg_cap &&& h.MCG_CAP_COUNT) then 1
  else 0

/-- The read guard `intel_mce_rdmsr(v, msr, val)`: its return value and the
content of `*val` afterwards. -/
def intel_mce_rdmsr (h : msr_h) (v : vcpu) (msr val : Nat) : Nat × Nat :=
  if msr ≥ h.MSR_IA32_MC0_CTL2 ∧ msr < h.MSR_IA32_MCx_CTL2 (v.mcg_cap &&& h.MCG_CAP_COUNT) then
    (1, val)
  else (0, val)

/-! ## Vocabulary of the notification path -/

/-- Owner of a pending page as the builder stores it in `mc_domid`:
`status >> PG_OFFLINE_OWNER_SHIFT`, truncated to the 16-bit field. -/
def page_owner (m : memerr_h) (st : Nat) : Nat := (st >>> m.PG_OFFLINE_OWNER_SHIFT) % 2 ^ 16

/-- The guest frame the builder reads for the faulting host frame:
`get_gpfn_from_mfn(mc_addr >> PAGE_SHIFT)` as an `unsigned long`. -/
def guest_frame (m : memerr_h) (env : extern_env) (b : mca_binfo) : Nat :=
  env.get_gpfn_from_mfn (b.mib.mc_addr >>> m.PAGE_SHIFT) % 2 ^ 64

/-- The value the builder assigns to `mc_addr` before notification:
`gfn << PAGE_SHIFT | (mc_addr & (PAGE_SIZE - 1))` in 64-bit arithmetic. -/
def guest_addr (m : memerr_h) (gfn old_addr : Nat) : Nat :=
  ((gfn <<< m.PAGE_SHIFT) % 2 ^ 64) ||| (old_addr &&& (PAGE_SIZE m - 1))

/-- At least one notification step fails for domain `d`: `is_vmce_ready` is
false, or `unmmap_broken_page` returns nonzero, or `fill_vmsr_data` returns -1,
or `inject_vmce` returns a negative value; each call with the arguments the
builder passes for bank observation `b` and offline status `st`. -/
def vmce_step_fails (m : memerr_h) (env : extern_env) (b : mca_binfo) (st : Nat) (d : domain) :
    Bool :=
  let bank : mcinfo_bank := { b.mib with mc_domid := page_owner m st }
  let gfn := guest_frame m env b
  (env.is_vmce_ready bank d == false) ||
    decide (env.unmmap_broken_page d (b.mib.mc_addr >>> m.PAGE_SHIFT) gfn ≠ 0) ||
    decide (env.fill_vmsr_data { bank with mc_addr := guest_addr m gfn b.mib.mc_addr } d
      b.mig.mc_gstatus = -1) ||
    decide (env.inject_vmce d < 0)

/-! ## Sample inputs for evaluating the model -/

/-- A collaborator environment in which page retirement succeeds with status
`st`, the report has room, every domain exists and accepts the injected fault. -/
def env_ok (st : Nat) : extern_env where
  offline_page := fun _ _ => (0, st)
  x86_mcinfo_reserve := fun _ => true
  get_domain_by_id := fun id => some { domain_id := id }
  get_gpfn_from_mfn := fun mfn => mfn
  is_vmce_ready := fun _ _ => true
  unmmap_broken_page := fun _ _ _ => 0
  fill_vmsr_data := fun _ _ _ => 0
  inject_vmce := fun _ => 0

/-- A bank observation of bank 1 with the given status, address and misc
register and an empty report. -/
def sample_binfo (status addr misc : Nat) : mca_binfo where
  bank := 1
  mig := { mc_gstatus := 0 }
  mib := { mc_status := status, mc_addr := addr, mc_misc := misc, mc_domid := 0 }
  mi := some { flags := 0, recovery := [] }

/-- A collaborator environment in which the page retirement request fails. -/
def env_offline_fails : extern_env where
  offline_page := fun _ _ => (-1, 0)
  x86_mcinfo_reserve := fun _ => true
  get_domain_by_id := fun id => some { domain_id := id }
  get_gpfn_from_mfn := fun mfn => mfn
  is_vmce_ready := fun _ _ => true
  unmmap_broken_page := fun _ _ _ => 0
  fill_vmsr_data := fun _ _ _ => 0
  inject_vmce := fun _ => 0

/-- A collaborator environment like `env_ok st` in which the guest rejects the
injected fault. -/
def env_inject_fails (st : Nat) : extern_env :=
  { env_ok st with inject_vmce := fun _ => -1 }

/-- A starting state: every control register is 0 and nothing is owned. -/
def cmci_sample : cmci_state where
  ctl2 := fun _ => 0
  mce_banks_owned := fun _ => ∅
  no_cmci_banks := fun _ => ∅

/-- A state in which processor 1 owns bank 0, whose control register has
`CMCI_EN`, a threshold of 2 and bit 20 set; nothing else is enabled or owned. -/
def cmci_owned_sample : cmci_state where
  ctl2 := fun i => if i = 0 then 0x40100002 else 0
  mce_banks_owned := fun cpu => if cpu = 1 then {0} else ∅
  no_cmci_banks := fun _ => ∅

/-- A collaborator environment like `env_ok st` in which the report has no room
for another record. -/
def env_report_full (st : Nat) : extern_env :=
  { env_ok st with x86_mcinfo_reserve := fun _ => false }

/-! ## Theorems -/

/-- C1: for every status and either value of `ser_support`,
`intel_check_mce_type` equals the six-step priority procedure of the
specification, and one of the statements before the trailing
`return intel_mce_fatal` always returns, so the trailing return never decides. -/
theorem intel_check_mce_type_eq_classify_spec (k : x86_mca_h) (ser_support : Bool)
    (status : Nat) :
    intel_check_mce_type k ser_support status
        = classify_spec (flag status k.MCi_STATUS_VAL) (flag status k.MCi_STATUS_PCC)
            (flag status k.MCi_STATUS_UC) ser_support (flag status k.MCi_STATUS_S)
            (flag status k.MCi_STATUS_AR) (flag status k.MCi_STATUS_OVER)
      ∧ intel_check_mce_type_body k ser_support status
          = some (intel_check_mce_type k ser_support status) := by
  unfold intel_check_mce_type intel_check_mce_type_body classify_spec flag
  cases ser_support <;>
  by_cases h1 : status &&& k.MCi_STATUS_VAL = 0 <;>
  by_cases h2 : status &&& k.MCi_STATUS_PCC = 0 <;>
  by_cases h3 : status &&& k.MCi_STATUS_UC = 0 <;>
  by_cases h4 : status &&& k.MCi_STATUS_S = 0 <;>
  by_cases h5 : status &&& k.MCi_STATUS_AR = 0 <;>
  by_cases h6 : status &&& k.MCi_STATUS_OVER = 0 <;>
  simp [h1, h2, h3, h4, h5, h6]

/-- C2 as stated fails: with the architectural bit layout, the status whose only
set bit is PROCESSOR_CONTEXT_CORRUPT has that flag set, yet it is classified
Invalid (VALID is tested first), not Fatal. -/
theorem pcc_without_valid_not_fatal :
    (0x0200000000000000 &&& sdm.MCi_STATUS_PCC ≠ 0) ∧
      intel_check_mce_type sdm true 0x0200000000000000 = intel_mce_invalid ∧
      intel_check_mce_type sdm true 0x0200000000000000 ≠ intel_mce_fatal := by
  decide

/-- C2, amended: for every status with VALID and PROCESSOR_CONTEXT_CORRUPT both
set, and either value of `ser_support`, `intel_check_mce_type` returns Fatal,
whatever the other bits are (in particular when UNCORRECTED is unset). -/
theorem intel_check_mce_type_pcc_fatal (k : x86_mca_h) (ser_support : Bool) (status : Nat)
    (hval : status &&& k.MCi_STATUS_VAL ≠ 0) (hpcc : status &&& k.MCi_STATUS_PCC ≠ 0) :
    intel_check_mce_type k ser_support status = intel_mce_fatal := by
  simp [intel_check_mce_type, intel_check_mce_type_body, hval, hpcc]

/-- Witness for C2 amended: VALID and PCC set, UNCORRECTED unset, no software
recovery support. -/
theorem intel_check_mce_type_pcc_fatal_witness :
    (0x8200000000000000 &&& sdm.MCi_STATUS_UC = 0) ∧
      intel_check_mce_type sdm false 0x8200000000000000 = intel_mce_fatal :=
  ⟨by decide, intel_check_mce_type_pcc_fatal sdm false 0x8200000000000000 (by decide) (by decide)⟩

/-- C3: for every status and either value of `ser_support`,
`intel_check_mce_type` returns Invalid if and only if the VALID bit is unset. -/
theorem intel_check_mce_type_invalid_iff (k : x86_mca_h) (ser_support : Bool) (status : Nat) :
    intel_check_mce_type k ser_support status = intel_mce_invalid
      ↔ status &&& k.MCi_STATUS_VAL = 0 := by
  unfold intel_check_mce_type intel_check_mce_type_body
  by_cases h1 : status &&& k.MCi_STATUS_VAL = 0
  · simp [h1]
  · simp only [h1, if_false, iff_false]
    split_ifs <;> simp

/-! ### Dispatch -/

/-- Reading the invoked handlers off a trace distributes over appending. -/
theorem handlers_run_append (a b : List event) :
    handlers_run (a ++ b) = handlers_run a ++ handlers_run b := by
  simp [handlers_run, List.filterMap_append]

/-- The failure exit of the notification block invokes no table handler. -/
theorem handlers_run_vmce_failed (d : domain) (s : hstate) :
    handlers_run (vmce_failed d s).trace = handlers_run s.trace := by
  simp [vmce_failed, handlers_run_append, handlers_run]

/-- The notification block invokes no table handler. -/
theorem handlers_run_memerr_notify (m : memerr_h) (env : extern_env) (status mfn : Nat)
    (s : hstate) :
    handlers_run (memerr_notify m env status mfn s).trace = handlers_run s.trace := by
  unfold memerr_notify
  simp only []
  split_ifs
  · rfl
  · split
    · simp [handlers_run_append, handlers_run]
    · split_ifs <;> simp only [handlers_run_vmce_failed, handlers_run_append] <;>
        simp [handlers_run]
  · rfl

/-- The recovery builder invokes no table handler: the handlers read off the
trace are the same before and after it. -/
theorem handlers_run_memerr (k : x86_mca_h) (m : memerr_h) (env : extern_env) (s : hstate) :
    handlers_run (intel_memerr_dhandler k m env s).trace = handlers_run s.trace := by
  unfold intel_memerr_dhandler
  simp only []
  split_ifs <;> simp only [handlers_run_memerr_notify, handlers_run_append] <;>
    simp [handlers_run]

/-- Neither SRAO nor SRAR handler invokes a table handler. -/
theorem handlers_run_call_handler (k : x86_mca_h) (m : memerr_h) (ser_support : Bool)
    (env : extern_env) (h : handler_fn) (s : hstate) :
    handlers_run (call_handler k m ser_support env h s).trace = handlers_run s.trace := by
  cases h
  · simp only [call_handler, intel_srao_dhandler]
    split_ifs <;> simp [handlers_run_memerr]
  · simp only [call_handler, intel_srar_dhandler]
    split_ifs <;> simp [handlers_run_memerr]
  · simp only [call_handler, intel_default_mce_dhandler]
    split_ifs <;> simp
  · simp only [call_handler, intel_default_mce_uhandler]
    split <;> simp

/-- C4: for every bank observation whose status is classified Fatal, first-match
dispatch over `intel_mce_dhandlers` and over `intel_mce_uhandlers` both leave the
outcome Reset; and each default handler leaves Reset exactly when the
classification is Fatal and Continue for every other classification. -/
theorem fatal_always_resets (k : x86_mca_h) (m : memerr_h) (ser_support : Bool)
    (env : extern_env) (s : hstate) :
    (intel_check_mce_type k ser_support s.binfo.mib.mc_status = intel_mce_fatal →
      (mce_dispatch k m ser_support env intel_mce_dhandlers s).result = MCER_RESET ∧
      (mce_dispatch k m ser_support env intel_mce_uhandlers s).result = MCER_RESET) ∧
    (((intel_default_mce_dhandler k ser_support s).result = MCER_RESET ↔
        intel_check_mce_type k ser_support s.binfo.mib.mc_status = intel_mce_fatal) ∧
      (intel_check_mce_type k ser_support s.binfo.mib.mc_status ≠ intel_mce_fatal →
        (intel_default_mce_dhandler k ser_support s).result = MCER_CONTINUE)) ∧
    (((intel_default_mce_uhandler k ser_support s).result = MCER_RESET ↔
        intel_check_mce_type k ser_support s.binfo.mib.mc_status = intel_mce_fatal) ∧
      (intel_check_mce_type k ser_support s.binfo.mib.mc_status ≠ intel_mce_fatal →
        (intel_default_mce_uhandler k ser_support s).result = MCER_CONTINUE)) := by
  refine ⟨?_, ?_, ?_⟩
  · intro h
    simp [mce_dispatch, intel_mce_dhandlers, intel_mce_uhandlers, call_check, call_handler,
      intel_srao_check, intel_srar_check, intel_default_check, intel_default_mce_dhandler,
      intel_default_mce_uhandler, h]
  · unfold intel_default_mce_dhandler
    by_cases h : intel_check_mce_type k ser_support s.binfo.mib.mc_status = intel_mce_fatal <;>
      simp [h]
  · simp only [intel_default_mce_uhandler]
    cases h : intel_check_mce_type k ser_support s.binfo.mib.mc_status <;> simp

/-- Witness for C4: VALID, UNCORRECTED and PCC set is classified Fatal, and both
tables dispatch to Reset. -/
theorem fatal_always_resets_witness :
    intel_check_mce_type sdm true 0xA200000000000000 = intel_mce_fatal ∧
      (mce_dispatch sdm xen_h true (env_ok 2) intel_mce_dhandlers
          (hstate.init (sample_binfo 0xA200000000000000 0 0) MCER_CONTINUE)).result = MCER_RESET ∧
      (mce_dispatch sdm xen_h true (env_ok 2) intel_mce_uhandlers
          (hstate.init (sample_binfo 0xA200000000000000 0 0) MCER_CONTINUE)).result = MCER_RESET :=
  ⟨by decide,
    (fatal_always_resets sdm xen_h true (env_ok 2)
      (hstate.init (sample_binfo 0xA200000000000000 0 0) MCER_CONTINUE)).1 (by decide)⟩

/-- C5: dispatch over `intel_mce_dhandlers` is total and unambiguous.  The last
entry is the default entry and its predicate is true for every status; the SRAO
and SRAR predicates are never both true; and for every bank observation there is
a first entry whose predicate is true, that entry's handler is the one handler
dispatch invokes, and it is the SRAO handler exactly when the status classifies
as SRAO, the SRAR handler exactly when it classifies as SRAR, and the default
handler in every other case. -/
theorem dhandlers_dispatch_total (k : x86_mca_h) (m : memerr_h) (ser_support : Bool)
    (env : extern_env) (s : hstate) :
    (intel_mce_dhandlers.getLast? =
        some { owned_error := check_fn.intel_default_check,
               recovery_handler := handler_fn.intel_default_mce_dhandler } ∧
      ∀ st : Nat, call_check k ser_support check_fn.intel_default_check st ≠ 0) ∧
    ¬ (intel_srao_check k ser_support s.binfo.mib.mc_status ≠ 0 ∧
        intel_srar_check k ser_support s.binfo.mib.mc_status ≠ 0) ∧
    ∃ e : mca_error_handler,
      intel_mce_dhandlers.find?
          (fun e => decide (call_check k ser_support e.owned_error s.binfo.mib.mc_status ≠ 0))
        = some e ∧
      mce_dispatch k m ser_support env intel_mce_dhandlers s
        = call_handler k m ser_support env e.recovery_handler
            { s with trace := s.trace ++ [event.recovery_handler e.recovery_handler] } ∧
      handlers_run (mce_dispatch k m ser_support env intel_mce_dhandlers s).trace
        = handlers_run s.trace ++ [e.recovery_handler] ∧
      (e.recovery_handler = handler_fn.intel_srao_dhandler ↔
        intel_check_mce_type k ser_support s.binfo.mib.mc_status = intel_mce_ucr_srao) ∧
      (e.recovery_handler = handler_fn.intel_srar_dhandler ↔
        intel_check_mce_type k ser_support s.binfo.mib.mc_status = intel_mce_ucr_srar) ∧
      (e.recovery_handler = handler_fn.intel_default_mce_dhandler ↔
        (intel_check_mce_type k ser_support s.binfo.mib.mc_status ≠ intel_mce_ucr_srao ∧
          intel_check_mce_type k ser_support s.binfo.mib.mc_status ≠ intel_mce_ucr_srar)) := by
  refine ⟨⟨by simp [intel_mce_dhandlers], by simp [call_check, intel_default_check]⟩, ?_, ?_⟩
  · simp only [intel_srao_check, intel_srar_check]
    cases intel_check_mce_type k ser_support s.binfo.mib.mc_status <;> simp
  · by_cases h1 : intel_check_mce_type k ser_support s.binfo.mib.mc_status = intel_mce_ucr_srao
    · have hd : mce_dispatch k m ser_support env intel_mce_dhandlers s
          = call_handler k m ser_support env handler_fn.intel_srao_dhandler
              { s with trace := s.trace ++ [event.recovery_handler handler_fn.intel_srao_dhandler] } := by
        simp [intel_mce_dhandlers, mce_dispatch, call_check, intel_srao_check, h1]
      refine ⟨{ owned_error := check_fn.intel_srao_check,
                recovery_handler := handler_fn.intel_srao_dhandler }, ?_, hd, ?_, ?_⟩
      · simp [intel_mce_dhandlers, call_check, intel_srao_check, h1]
      · rw [hd, handlers_run_call_handler]
        simp [handlers_run]
      · simp [h1]
    · by_cases h2 : intel_check_mce_type k ser_support s.binfo.mib.mc_status = intel_mce_ucr_srar
      · have hd : mce_dispatch k m ser_support env intel_mce_dhandlers s
            = call_handler k m ser_support env handler_fn.intel_srar_dhandler
                { s with
                  trace := s.trace ++ [event.recovery_handler handler_fn.intel_srar_dhandler] } := by
          simp [intel_mce_dhandlers, mce_dispatch, call_check, intel_srao_check,
            intel_srar_check, h2]
        refine ⟨{ owned_error := check_fn.intel_srar_check,
                  recovery_handler := handler_fn.intel_srar_dhandler }, ?_, hd, ?_, ?_⟩
        · simp [intel_mce_dhandlers, call_check, intel_srao_check, intel_srar_check, h2]
        · rw [hd, handlers_run_call_handler]
          simp [handlers_run]
        · simp [h2]
      · have hd : mce_dispatch k m ser_support env intel_mce_dhandlers s
            = call_handler k m ser_support env handler_fn.intel_default_mce_dhandler
                { s with
                  trace := s.trace
                    ++ [event.recovery_handler handler_fn.intel_default_mce_dhandler] } := by
          simp [intel_mce_dhandlers, mce_dispatch, call_check, intel_srao_check,
            intel_srar_check, intel_default_check, h1, h2]
        refine ⟨{ owned_error := check_fn.intel_default_check,
                  recovery_handler := handler_fn.intel_default_mce_dhandler }, ?_, hd, ?_, ?_⟩
        · simp [intel_mce_dhandlers, call_check, intel_srao_check, intel_srar_check,
            intel_default_check, h1, h2]
        · rw [hd, handlers_run_call_handler]
          simp [handlers_run]
        · simp [h1, h2]

/-! ### Recovery action builder: shape of a run -/

/-- The notification block only appends consumer events to the trace. -/
theorem memerr_notify_trace (m : memerr_h) (env : extern_env) (status mfn : Nat) (s : hstate) :
    ∃ evs : List event, (memerr_notify m env status mfn s).trace = s.trace ++ evs ∧
      ∀ e ∈ evs, consumer_event e = true := by
  unfold memerr_notify
  simp only []
  split_ifs
  · exact ⟨[], by simp, by simp⟩
  · split
    · exact ⟨_, rfl, by simp [consumer_event]⟩
    · split_ifs <;>
        simp only [vmce_failed, List.append_assoc, List.singleton_append, List.cons_append,
          List.nil_append] <;>
        exact ⟨_, rfl, by simp [consumer_event]⟩
  · exact ⟨[], by simp, by simp⟩

/-- Consumer events are neither retirement requests nor builder entries. -/
theorem offline_requests_of_consumer (evs : List event)
    (h : ∀ e ∈ evs, consumer_event e = true) :
    offline_requests evs = [] ∧ event.memerr_enter ∉ evs := by
  induction evs with
  | nil => simp [offline_requests]
  | cons e rest ih =>
    have he := h e (List.mem_cons_self e rest)
    have hr := ih (fun x hx => h x (List.mem_cons_of_mem e hx))
    cases e <;> simp_all [offline_requests, consumer_event]

/-- Reading the retirement requests off a trace distributes over appending. -/
theorem offline_requests_append (a b : List event) :
    offline_requests (a ++ b) = offline_requests a ++ offline_requests b := by
  simp [offline_requests, List.filterMap_append]

/-- Every run of the recovery builder logs its entry right after the calls made
before it. -/
theorem memerr_trace_enter (k : x86_mca_h) (m : memerr_h) (env : extern_env) (s : hstate) :
    ∃ evs : List event,
      (intel_memerr_dhandler k m env s).trace = s.trace ++ event.memerr_enter :: evs := by
  unfold intel_memerr_dhandler
  simp only []
  split_ifs
  any_goals
    simp only [List.append_assoc, List.singleton_append, List.cons_append, List.nil_append]
    exact ⟨_, rfl⟩
  obtain ⟨evs, h, _⟩ := memerr_notify_trace m env
    ((env.offline_page (s.binfo.mib.mc_addr >>> m.PAGE_SHIFT) 1).2 % 2 ^ 32)
    (s.binfo.mib.mc_addr >>> m.PAGE_SHIFT)
    { s with
      trace := s.trace ++ [event.memerr_enter] ++
        [event.offline_page (s.binfo.mib.mc_addr >>> m.PAGE_SHIFT) 1],
      binfo := { s.binfo with
        mi := (mci_add_pageoff_action m env s.binfo.bank s.binfo.mi
          (s.binfo.mib.mc_addr >>> m.PAGE_SHIFT)
          ((env.offline_page (s.binfo.mib.mc_addr >>> m.PAGE_SHIFT) 1).2 % 2 ^ 32)).2 } }
  exact ⟨event.offline_page (s.binfo.mib.mc_addr >>> m.PAGE_SHIFT) 1 :: evs, by rw [h]; simp⟩

/-- The recovery builder is entered by `intel_srar_dhandler` exactly for the data
load and instruction fetch error codes. -/
theorem srar_reaches_iff (k : x86_mca_h) (m : memerr_h) (env : extern_env) (b : mca_binfo)
    (r : mce_result) :
    event.memerr_enter ∈ (intel_srar_dhandler k m env (hstate.init b r)).trace ↔
      (b.mib.mc_status &&& INTEL_MCCOD_MASK = INTEL_SRAR_DATA_LOAD ∨
        b.mib.mc_status &&& INTEL_MCCOD_MASK = INTEL_SRAR_INSTR_FETCH) := by
  simp only [intel_srar_dhandler, hstate.init]
  split_ifs with h
  · obtain ⟨evs, he⟩ := memerr_trace_enter k m env
      { binfo := b, result := MCER_RESET, trace := [], defect := none }
    simp [he, h]
  · simp [h]

/-- The recovery builder is entered by `intel_srao_dhandler` exactly when VALID is
set and the error code is a memory scrub or L3 explicit writeback code. -/
theorem srao_reaches_iff (k : x86_mca_h) (m : memerr_h) (env : extern_env) (b : mca_binfo)
    (r : mce_result) :
    event.memerr_enter ∈ (intel_srao_dhandler k m env (hstate.init b r)).trace ↔
      (b.mib.mc_status &&& k.MCi_STATUS_VAL ≠ 0 ∧
        (INTEL_SRAO_MEM_SCRUB (b.mib.mc_status &&& INTEL_MCCOD_MASK) = true ∨
          b.mib.mc_status &&& INTEL_MCCOD_MASK = INTEL_SRAO_L3_EWB)) := by
  simp only [intel_srao_dhandler, hstate.init]
  split_ifs with h1 h2
  · obtain ⟨evs, he⟩ := memerr_trace_enter k m env
      { binfo := b, result := MCER_CONTINUE, trace := [], defect := none }
    simp [he, h1, h2]
  · simp [h1, h2]
  · simp [h1]

/-- A status whose VALID bit is unset is classified Invalid. -/
theorem check_mce_type_of_val_unset (k : x86_mca_h) (ser_support : Bool) (status : Nat)
    (h : status &&& k.MCi_STATUS_VAL = 0) :
    intel_check_mce_type k ser_support status = intel_mce_invalid := by
  simp [intel_check_mce_type, intel_check_mce_type_body, h]

/-! ### Routing by error code -/

/-- C6: for every bank observation and preset outcome, `intel_srar_dhandler`
enters the recovery builder if and only if the 16-bit error code is 0x134 or
0x150; for every other code nothing is called (no retirement request), the bank
observation and its report are unchanged (no record) and the outcome is Reset. -/
theorem srar_routing (k : x86_mca_h) (m : memerr_h) (env : extern_env) (b : mca_binfo)
    (r : mce_result) :
    (event.memerr_enter ∈ (intel_srar_dhandler k m env (hstate.init b r)).trace ↔
        (b.mib.mc_status &&& 0xFFFF = 0x134 ∨ b.mib.mc_status &&& 0xFFFF = 0x150)) ∧
      (¬ (b.mib.mc_status &&& 0xFFFF = 0x134 ∨ b.mib.mc_status &&& 0xFFFF = 0x150) →
        (intel_srar_dhandler k m env (hstate.init b r)).trace = [] ∧
        (intel_srar_dhandler k m env (hstate.init b r)).binfo = b ∧
        (intel_srar_dhandler k m env (hstate.init b r)).result = MCER_RESET ∧
        (intel_srar_dhandler k m env (hstate.init b r)).defect = none) := by
  refine ⟨?_, ?_⟩
  · have h := srar_reaches_iff k m env b r
    simpa [INTEL_MCCOD_MASK, INTEL_SRAR_DATA_LOAD, INTEL_SRAR_INSTR_FETCH] using h
  · intro h
    have h' : ¬ (b.mib.mc_status &&& INTEL_MCCOD_MASK = INTEL_SRAR_DATA_LOAD ∨
        b.mib.mc_status &&& INTEL_MCCOD_MASK = INTEL_SRAR_INSTR_FETCH) := by
      simpa [INTEL_MCCOD_MASK, INTEL_SRAR_DATA_LOAD, INTEL_SRAR_INSTR_FETCH] using h
    simp only [intel_srar_dhandler, hstate.init, h', if_false, and_self]

/-- Witness for C6: an SRAR-shaped status with error code 0x001 is not routed to
the builder and yields Reset. -/
theorem srar_routing_witness :
    ¬ ((sample_binfo 0xAD80000000000001 0x5000 0x80).mib.mc_status &&& 0xFFFF = 0x134 ∨
        (sample_binfo 0xAD80000000000001 0x5000 0x80).mib.mc_status &&& 0xFFFF = 0x150) ∧
      (intel_srar_dhandler sdm xen_h (env_ok 2)
          (hstate.init (sample_binfo 0xAD80000000000001 0x5000 0x80) MCER_CONTINUE)).result
        = MCER_RESET :=
  ⟨by decide,
    ((srar_routing sdm xen_h (env_ok 2) (sample_binfo 0xAD80000000000001 0x5000 0x80)
        MCER_CONTINUE).2 (by decide)).2.2.1⟩

/-- C7: for every bank observation whose status classifies as SRAO,
`intel_srao_dhandler` enters the recovery builder if and only if the 16-bit error
code lies in 0xC0..0xCF or equals 0x17A; for every other code nothing is called,
the bank observation and its report are unchanged and the outcome is Continue. -/
theorem srao_routing (k : x86_mca_h) (m : memerr_h) (ser_support : Bool) (env : extern_env)
    (b : mca_binfo) (r : mce_result)
    (hsrao : intel_check_mce_type k ser_support b.mib.mc_status = intel_mce_ucr_srao) :
    (event.memerr_enter ∈ (intel_srao_dhandler k m env (hstate.init b r)).trace ↔
        ((0xC0 ≤ b.mib.mc_status &&& 0xFFFF ∧ b.mib.mc_status &&& 0xFFFF ≤ 0xCF) ∨
          b.mib.mc_status &&& 0xFFFF = 0x17A)) ∧
      (¬ ((0xC0 ≤ b.mib.mc_status &&& 0xFFFF ∧ b.mib.mc_status &&& 0xFFFF ≤ 0xCF) ∨
          b.mib.mc_status &&& 0xFFFF = 0x17A) →
        (intel_srao_dhandler k m env (hstate.init b r)).trace = [] ∧
        (intel_srao_dhandler k m env (hstate.init b r)).binfo = b ∧
        (intel_srao_dhandler k m env (hstate.init b r)).result = MCER_CONTINUE ∧
        (intel_srao_dhandler k m env (hstate.init b r)).defect = none) := by
  have hval : b.mib.mc_status &&& k.MCi_STATUS_VAL ≠ 0 := by
    intro h0
    rw [check_mce_type_of_val_unset k ser_support _ h0] at hsrao
    exact absurd hsrao (by decide)
  refine ⟨?_, ?_⟩
  · have h := srao_reaches_iff k m env b r
    simpa [INTEL_MCCOD_MASK, INTEL_SRAO_MEM_SCRUB, INTEL_SRAO_L3_EWB, hval] using h
  · intro h
    have h' : ¬ (INTEL_SRAO_MEM_SCRUB (b.mib.mc_status &&& INTEL_MCCOD_MASK) = true ∨
        b.mib.mc_status &&& INTEL_MCCOD_MASK = INTEL_SRAO_L3_EWB) := by
      simpa [INTEL_MCCOD_MASK, INTEL_SRAO_MEM_SCRUB, INTEL_SRAO_L3_EWB] using h
    simp only [intel_srao_dhandler, hstate.init, h', if_false, and_self, ite_self]

/-- Witness for C7: with software recovery supported, SRAO-shaped statuses with
error codes 0xC5 and 0x17A enter the builder, and one with code 0x001 does not
and yields Continue. -/
theorem srao_routing_witness :
    intel_check_mce_type sdm true 0xAD000000000000C5 = intel_mce_ucr_srao ∧
      event.memerr_enter ∈ (intel_srao_dhandler sdm xen_h (env_ok 2)
          (hstate.init (sample_binfo 0xAD000000000000C5 0x5000 0x80) MCER_RESET)).trace ∧
      event.memerr_enter ∈ (intel_srao_dhandler sdm xen_h (env_ok 2)
          (hstate.init (sample_binfo 0xAD0000000000017A 0x5000 0x80) MCER_RESET)).trace ∧
      (intel_srao_dhandler sdm xen_h (env_ok 2)
          (hstate.init (sample_binfo 0xAD00000000000001 0x5000 0x80) MCER_RESET)).result
        = MCER_CONTINUE :=
  ⟨by decide,
    (srao_routing sdm xen_h true (env_ok 2) (sample_binfo 0xAD000000000000C5 0x5000 0x80)
        MCER_RESET (by decide)).1.2 (by decide),
    (srao_routing sdm xen_h true (env_ok 2) (sample_binfo 0xAD0000000000017A 0x5000 0x80)
        MCER_RESET (by decide)).1.2 (by decide),
    ((srao_routing sdm xen_h true (env_ok 2) (sample_binfo 0xAD00000000000001 0x5000 0x80)
        MCER_RESET (by decide)).2 (by decide)).2.2.1⟩

/-! ### Page retirement -/

/-- The notification block requests no page retirement. -/
theorem memerr_notify_offline_requests (m : memerr_h) (env : extern_env) (status mfn : Nat)
    (s : hstate) :
    offline_requests (memerr_notify m env status mfn s).trace = offline_requests s.trace := by
  obtain ⟨evs, h, hc⟩ := memerr_notify_trace m env status mfn s
  rw [h, offline_requests_append, (offline_requests_of_consumer evs hc).1, List.append_nil]

/-- When the address preconditions hold, a run of the recovery builder requests
retirement exactly once more, for frame `mc_addr >> PAGE_SHIFT`. -/
theorem memerr_offline_requests (k : x86_mca_h) (m : memerr_h) (env : extern_env) (s : hstate)
    (haddrv : s.binfo.mib.mc_status &&& k.MCi_STATUS_ADDRV ≠ 0)
    (hmiscv : s.binfo.mib.mc_status &&& k.MCi_STATUS_MISCV ≠ 0)
    (hphys : s.binfo.mib.mc_misc &&& k.MCi_MISC_ADDRMOD_MASK = k.MCi_MISC_PHYSMOD) :
    offline_requests (intel_memerr_dhandler k m env s).trace
      = offline_requests s.trace ++ [s.binfo.mib.mc_addr >>> m.PAGE_SHIFT] := by
  unfold intel_memerr_dhandler
  simp only [haddrv, hmiscv, hphys, ne_eq, not_true_eq_false, or_self, if_false]
  split_ifs <;> simp only [memerr_notify_offline_requests, offline_requests_append] <;>
    simp [offline_requests]

/-- C8: with software recovery supported, for every bank whose status has VALID,
UNCORRECTED, SIGNALED, ADDRESS_RECOVERABLE, ADDRESS_VALID and MISC_VALID set, PCC
and OVERFLOW unset and error code 0x134, and whose misc register is in
physical-address mode: the status classifies as SRAR, dispatch over
`intel_mce_dhandlers` invokes `intel_srar_dhandler` and no other handler, the
recovery builder is entered, and page retirement is requested exactly once, for
frame `mc_addr >> PAGE_SHIFT`. -/
theorem srar_scenario (k : x86_mca_h) (m : memerr_h) (env : extern_env) (b : mca_binfo)
    (r : mce_result)
    (hval : b.mib.mc_status &&& k.MCi_STATUS_VAL ≠ 0)
    (huc : b.mib.mc_status &&& k.MCi_STATUS_UC ≠ 0)
    (hs : b.mib.mc_status &&& k.MCi_STATUS_S ≠ 0)
    (har : b.mib.mc_status &&& k.MCi_STATUS_AR ≠ 0)
    (haddrv : b.mib.mc_status &&& k.MCi_STATUS_ADDRV ≠ 0)
    (hmiscv : b.mib.mc_status &&& k.MCi_STATUS_MISCV ≠ 0)
    (hpcc : b.mib.mc_status &&& k.MCi_STATUS_PCC = 0)
    (hover : b.mib.mc_status &&& k.MCi_STATUS_OVER = 0)
    (hcode : b.mib.mc_status &&& 0xFFFF = 0x134)
    (hphys : b.mib.mc_misc &&& k.MCi_MISC_ADDRMOD_MASK = k.MCi_MISC_PHYSMOD) :
    intel_check_mce_type k true b.mib.mc_status = intel_mce_ucr_srar ∧
      handlers_run (mce_dispatch k m true env intel_mce_dhandlers (hstate.init b r)).trace
        = [handler_fn.intel_srar_dhandler] ∧
      event.memerr_enter ∈
        (mce_dispatch k m true env intel_mce_dhandlers (hstate.init b r)).trace ∧
      offline_requests (mce_dispatch k m true env intel_mce_dhandlers (hstate.init b r)).trace
        = [b.mib.mc_addr >>> m.PAGE_SHIFT] := by
  have ht : intel_check_mce_type k true b.mib.mc_status = intel_mce_ucr_srar := by
    simp [intel_check_mce_type, intel_check_mce_type_body, hval, huc, hs, har, hpcc, hover]
  have hd : mce_dispatch k m true env intel_mce_dhandlers (hstate.init b r)
      = intel_memerr_dhandler k m env
          { binfo := b, result := MCER_RESET,
            trace := [event.recovery_handler handler_fn.intel_srar_dhandler], defect := none } := by
    simp [intel_mce_dhandlers, mce_dispatch, call_check, call_handler, intel_srao_check,
      intel_srar_check, ht, hstate.init, intel_srar_dhandler, INTEL_MCCOD_MASK,
      INTEL_SRAR_DATA_LOAD, hcode]
  refine ⟨ht, ?_, ?_, ?_⟩
  · rw [hd, handlers_run_memerr]
    simp [handlers_run]
  · rw [hd]
    obtain ⟨evs, he⟩ := memerr_trace_enter k m env
      { binfo := b, result := MCER_RESET,
        trace := [event.recovery_handler handler_fn.intel_srar_dhandler], defect := none }
    simp [he]
  · rw [hd, memerr_offline_requests k m env _ haddrv hmiscv hphys]
    simp [offline_requests]

/-- Witness for C8: the status 0xAD80000000000134 with address 0x5abc and misc
0x80 (physical-address mode); retirement is requested once, for frame 5. -/
theorem srar_scenario_witness :
    intel_check_mce_type sdm true (sample_binfo 0xAD80000000000134 0x5abc 0x80).mib.mc_status
        = intel_mce_ucr_srar ∧
      handlers_run (mce_dispatch sdm xen_h true (env_ok 2) intel_mce_dhandlers
          (hstate.init (sample_binfo 0xAD80000000000134 0x5abc 0x80) MCER_CONTINUE)).trace
        = [handler_fn.intel_srar_dhandler] ∧
      event.memerr_enter ∈ (mce_dispatch sdm xen_h true (env_ok 2) intel_mce_dhandlers
          (hstate.init (sample_binfo 0xAD80000000000134 0x5abc 0x80) MCER_CONTINUE)).trace ∧
      offline_requests (mce_dispatch sdm xen_h true (env_ok 2) intel_mce_dhandlers
          (hstate.init (sample_binfo 0xAD80000000000134 0x5abc 0x80) MCER_CONTINUE)).trace
        = [(sample_binfo 0xAD80000000000134 0x5abc 0x80).mib.mc_addr >>> xen_h.PAGE_SHIFT] :=
  srar_scenario sdm xen_h (env_ok 2) (sample_binfo 0xAD80000000000134 0x5abc 0x80)
    MCER_CONTINUE (by decide) (by decide) (by decide) (by decide) (by decide) (by decide)
    (by decide) (by decide) (by decide) (by decide)

/-! ### Recovery preconditions and retirement outcomes -/

/-- When an address precondition fails, the recovery builder only logs its entry. -/
theorem memerr_of_precondition_fail (k : x86_mca_h) (m : memerr_h) (env : extern_env)
    (s : hstate)
    (hpre : s.binfo.mib.mc_status &&& k.MCi_STATUS_ADDRV = 0 ∨
      s.binfo.mib.mc_status &&& k.MCi_STATUS_MISCV = 0 ∨
      s.binfo.mib.mc_misc &&& k.MCi_MISC_ADDRMOD_MASK ≠ k.MCi_MISC_PHYSMOD) :
    intel_memerr_dhandler k m env s = { s with trace := s.trace ++ [event.memerr_enter] } := by
  unfold intel_memerr_dhandler
  simp only [hpre, if_true]

/-- When the address preconditions hold and the retirement request returns 0 with
a flag word that has Offlined or RetryLater set, the recovery builder requests
the retirement, records the action and sets the outcome; nothing else happens. -/
theorem memerr_of_offlined_or_again (k : x86_mca_h) (m : memerr_h) (env : extern_env)
    (s : hstate) (st : Nat)
    (haddrv : s.binfo.mib.mc_status &&& k.MCi_STATUS_ADDRV ≠ 0)
    (hmiscv : s.binfo.mib.mc_status &&& k.MCi_STATUS_MISCV ≠ 0)
    (hphys : s.binfo.mib.mc_misc &&& k.MCi_MISC_ADDRMOD_MASK = k.MCi_MISC_PHYSMOD)
    (hst32 : st < 2 ^ 32)
    (hret : env.offline_page (s.binfo.mib.mc_addr >>> m.PAGE_SHIFT) 1 = (0, st))
    (hflag : st &&& m.PG_OFFLINE_OFFLINED ≠ 0 ∨ st &&& m.PG_OFFLINE_AGAIN ≠ 0) :
    intel_memerr_dhandler k m env s =
      { binfo := { s.binfo with
          mi := (mci_add_pageoff_action m env s.binfo.bank s.binfo.mi
            (s.binfo.mib.mc_addr >>> m.PAGE_SHIFT) st).2 },
        result := if st &&& m.PG_OFFLINE_OFFLINED ≠ 0 then MCER_RECOVERED else MCER_CONTINUE,
        trace := s.trace ++ [event.memerr_enter,
          event.offline_page (s.binfo.mib.mc_addr >>> m.PAGE_SHIFT) 1],
        defect := s.defect } := by
  have hmod : st % 2 ^ 32 = st := Nat.mod_eq_of_lt hst32
  unfold intel_memerr_dhandler
  simp only [haddrv, hmiscv, hphys, hret, hmod, ne_eq, not_true_eq_false, or_self, if_false]
  by_cases h1 : st &&& m.PG_OFFLINE_OFFLINED = 0
  · have h2 : st &&& m.PG_OFFLINE_AGAIN ≠ 0 := by
      rcases hflag with h | h
      · exact absurd h1 h
      · exact h
    simp [h1, h2]
  · simp [h1]

/-- C9 as stated fails on the SRAR path: with the architectural bit layout, an
SRAR status with error code 0x134 and ADDRESS_VALID unset enters the recovery
builder through `intel_srar_dhandler`, and the outcome is Reset, not Continue. -/
theorem srar_missing_address_outcome_reset :
    ((sample_binfo 0xA180000000000134 0x5abc 0x80).mib.mc_status &&& sdm.MCi_STATUS_ADDRV = 0) ∧
      event.memerr_enter ∈ (intel_srar_dhandler sdm xen_h (env_ok 2)
          (hstate.init (sample_binfo 0xA180000000000134 0x5abc 0x80) MCER_CONTINUE)).trace ∧
      (intel_srar_dhandler sdm xen_h (env_ok 2)
          (hstate.init (sample_binfo 0xA180000000000134 0x5abc 0x80) MCER_CONTINUE)).result
        = MCER_RESET ∧
      (intel_srar_dhandler sdm xen_h (env_ok 2)
          (hstate.init (sample_binfo 0xA180000000000134 0x5abc 0x80) MCER_CONTINUE)).result
        ≠ MCER_CONTINUE := by
  decide

/-- C9, amended: whenever the recovery builder is reached for a bank whose status
lacks ADDRESS_VALID, or lacks MISC_VALID, or whose misc register is not in
physical-address mode, the only call logged is the builder entry (no page
retirement is requested, no consumer is touched), the bank observation and its
report are unchanged (no record), and the outcome is the one preset by the
calling handler: Continue through `intel_srao_dhandler`, Reset through
`intel_srar_dhandler`. -/
theorem memerr_preconditions_guard (k : x86_mca_h) (m : memerr_h) (env : extern_env)
    (b : mca_binfo) (r : mce_result)
    (hpre : b.mib.mc_status &&& k.MCi_STATUS_ADDRV = 0 ∨
      b.mib.mc_status &&& k.MCi_STATUS_MISCV = 0 ∨
      b.mib.mc_misc &&& k.MCi_MISC_ADDRMOD_MASK ≠ k.MCi_MISC_PHYSMOD) :
    (event.memerr_enter ∈ (intel_srao_dhandler k m env (hstate.init b r)).trace →
        intel_srao_dhandler k m env (hstate.init b r)
          = { binfo := b, result := MCER_CONTINUE, trace := [event.memerr_enter],
              defect := none }) ∧
      (event.memerr_enter ∈ (intel_srar_dhandler k m env (hstate.init b r)).trace →
        intel_srar_dhandler k m env (hstate.init b r)
          = { binfo := b, result := MCER_RESET, trace := [event.memerr_enter],
              defect := none }) := by
  refine ⟨?_, ?_⟩
  · intro hreach
    obtain ⟨hval, hcode⟩ := (srao_reaches_iff k m env b r).1 hreach
    simp only [intel_srao_dhandler, hstate.init, hval, hcode, ne_eq, not_false_eq_true, if_true]
    rw [memerr_of_precondition_fail k m env _ hpre]
    simp
  · intro hreach
    have hcode := (srar_reaches_iff k m env b r).1 hreach
    simp only [intel_srar_dhandler, hstate.init, hcode, if_true]
    rw [memerr_of_precondition_fail k m env _ hpre]
    simp

/-- Witness for C9 amended: an SRAO and an SRAR status with ADDRESS_VALID unset,
routed to the builder by their error codes. -/
theorem memerr_preconditions_guard_witness :
    intel_srao_dhandler sdm xen_h (env_ok 2)
        (hstate.init (sample_binfo 0xA1000000000000C5 0x5abc 0x80) MCER_RESET)
      = { binfo := sample_binfo 0xA1000000000000C5 0x5abc 0x80, result := MCER_CONTINUE,
          trace := [event.memerr_enter], defect := none } ∧
    intel_srar_dhandler sdm xen_h (env_ok 2)
        (hstate.init (sample_binfo 0xA180000000000134 0x5abc 0x80) MCER_CONTINUE)
      = { binfo := sample_binfo 0xA180000000000134 0x5abc 0x80, result := MCER_RESET,
          trace := [event.memerr_enter], defect := none } :=
  ⟨(memerr_preconditions_guard sdm xen_h (env_ok 2)
      (sample_binfo 0xA1000000000000C5 0x5abc 0x80) MCER_RESET (Or.inl (by decide))).1
      (by decide),
    (memerr_preconditions_guard sdm xen_h (env_ok 2)
      (sample_binfo 0xA180000000000134 0x5abc 0x80) MCER_CONTINUE (Or.inl (by decide))).2
      (by decide)⟩

/-- C10: let the recovery builder be reached through `intel_srao_dhandler` or
through `intel_srar_dhandler`, with the address preconditions holding and the
retirement request returning 0 with the 32-bit flag word `st`.  If `st` has
Offlined set the outcome is Recovered; otherwise, if it has RetryLater set, the
outcome is Continue.  In both cases the only calls made are the builder entry and
the one retirement request, so no consumer is looked up, notified or crashed, the
bank is left as observed and no defect stop is reached. -/
theorem retirement_outcome (k : x86_mca_h) (m : memerr_h) (ser_support : Bool)
    (env : extern_env) (h : handler_fn) (b : mca_binfo) (r : mce_result) (st : Nat)
    (hh : h = handler_fn.intel_srao_dhandler ∨ h = handler_fn.intel_srar_dhandler)
    (hreach : event.memerr_enter ∈ (call_handler k m ser_support env h (hstate.init b r)).trace)
    (haddrv : b.mib.mc_status &&& k.MCi_STATUS_ADDRV ≠ 0)
    (hmiscv : b.mib.mc_status &&& k.MCi_STATUS_MISCV ≠ 0)
    (hphys : b.mib.mc_misc &&& k.MCi_MISC_ADDRMOD_MASK = k.MCi_MISC_PHYSMOD)
    (hst32 : st < 2 ^ 32)
    (hret : env.offline_page (b.mib.mc_addr >>> m.PAGE_SHIFT) 1 = (0, st))
    (hflag : st &&& m.PG_OFFLINE_OFFLINED ≠ 0 ∨ st &&& m.PG_OFFLINE_AGAIN ≠ 0) :
    (call_handler k m ser_support env h (hstate.init b r)).result
        = (if st &&& m.PG_OFFLINE_OFFLINED ≠ 0 then MCER_RECOVERED else MCER_CONTINUE) ∧
      (call_handler k m ser_support env h (hstate.init b r)).trace
        = [event.memerr_enter, event.offline_page (b.mib.mc_addr >>> m.PAGE_SHIFT) 1] ∧
      (∀ e ∈ (call_handler k m ser_support env h (hstate.init b r)).trace,
        consumer_event e = false) ∧
      (call_handler k m ser_support env h (hstate.init b r)).binfo.mib = b.mib ∧
      (call_handler k m ser_support env h (hstate.init b r)).defect = none := by
  have key : call_handler k m ser_support env h (hstate.init b r)
      = { binfo := { b with
            mi := (mci_add_pageoff_action m env b.bank b.mi (b.mib.mc_addr >>> m.PAGE_SHIFT) st).2 },
          result := if st &&& m.PG_OFFLINE_OFFLINED ≠ 0 then MCER_RECOVERED else MCER_CONTINUE,
          trace := [event.memerr_enter, event.offline_page (b.mib.mc_addr >>> m.PAGE_SHIFT) 1],
          defect := none } := by
    rcases hh with rfl | rfl
    · obtain ⟨hval, hcode⟩ := (srao_reaches_iff k m env b r).1 hreach
      simp only [call_handler, intel_srao_dhandler, hstate.init, hval, hcode, ne_eq,
        not_false_eq_true, if_true]
      rw [memerr_of_offlined_or_again k m env _ st haddrv hmiscv hphys hst32 hret hflag]
      simp
    · have hcode := (srar_reaches_iff k m env b r).1 hreach
      simp only [call_handler, intel_srar_dhandler, hstate.init, hcode, if_true]
      rw [memerr_of_offlined_or_again k m env _ st haddrv hmiscv hphys hst32 hret hflag]
      simp
  rw [key]
  simp [consumer_event]

/-- Witness for C10: an SRAR bank with error code 0x134 whose page is offlined
(flag word 2) is Recovered although the handler preset Reset. -/
theorem retirement_outcome_witness :
    (call_handler sdm xen_h true (env_ok 2) handler_fn.intel_srar_dhandler
        (hstate.init (sample_binfo 0xAD80000000000134 0x5abc 0x80) MCER_CONTINUE)).result
      = MCER_RECOVERED :=
  (retirement_outcome sdm xen_h true (env_ok 2) handler_fn.intel_srar_dhandler
    (sample_binfo 0xAD80000000000134 0x5abc 0x80) MCER_CONTINUE 2 (Or.inr rfl) (by decide)
    (by decide) (by decide) (by decide) (by decide) (by decide) (Or.inl (by decide))).1

/-! ### Recovery action record -/

/-- The notification block touches neither the report nor the bank index. -/
theorem memerr_notify_mi (m : memerr_h) (env : extern_env) (status mfn : Nat) (s : hstate) :
    (memerr_notify m env status mfn s).binfo.mi = s.binfo.mi ∧
      (memerr_notify m env status mfn s).binfo.bank = s.binfo.bank := by
  unfold memerr_notify
  simp only []
  split_ifs
  · exact ⟨rfl, rfl⟩
  · split
    · exact ⟨rfl, rfl⟩
    · split_ifs <;> simp [vmce_failed]
  · exact ⟨rfl, rfl⟩

/-- When the address preconditions hold and the retirement request returns 0,
the report after the run is the one left by `mci_add_pageoff_action`. -/
theorem memerr_mi_of_offline_ok (k : x86_mca_h) (m : memerr_h) (env : extern_env) (s : hstate)
    (st : Nat)
    (haddrv : s.binfo.mib.mc_status &&& k.MCi_STATUS_ADDRV ≠ 0)
    (hmiscv : s.binfo.mib.mc_status &&& k.MCi_STATUS_MISCV ≠ 0)
    (hphys : s.binfo.mib.mc_misc &&& k.MCi_MISC_ADDRMOD_MASK = k.MCi_MISC_PHYSMOD)
    (hst32 : st < 2 ^ 32)
    (hret : env.offline_page (s.binfo.mib.mc_addr >>> m.PAGE_SHIFT) 1 = (0, st)) :
    (intel_memerr_dhandler k m env s).binfo.mi
      = (mci_add_pageoff_action m env s.binfo.bank s.binfo.mi
          (s.binfo.mib.mc_addr >>> m.PAGE_SHIFT) st).2 := by
  have hmod : st % 2 ^ 32 = st := Nat.mod_eq_of_lt hst32
  unfold intel_memerr_dhandler
  simp only [haddrv, hmiscv, hphys, hret, hmod, ne_eq, not_true_eq_false, or_self, if_false]
  split_ifs <;> simp only [(memerr_notify_mi _ _ _ _ _).1]

/-- When the retirement request returns a nonzero value, the recovery builder
stops after the request. -/
theorem memerr_of_offline_fail (k : x86_mca_h) (m : memerr_h) (env : extern_env) (s : hstate)
    (haddrv : s.binfo.mib.mc_status &&& k.MCi_STATUS_ADDRV ≠ 0)
    (hmiscv : s.binfo.mib.mc_status &&& k.MCi_STATUS_MISCV ≠ 0)
    (hphys : s.binfo.mib.mc_misc &&& k.MCi_MISC_ADDRMOD_MASK = k.MCi_MISC_PHYSMOD)
    (hrc : (env.offline_page (s.binfo.mib.mc_addr >>> m.PAGE_SHIFT) 1).1 ≠ 0) :
    intel_memerr_dhandler k m env s
      = { s with trace := s.trace ++ [event.memerr_enter,
            event.offline_page (s.binfo.mib.mc_addr >>> m.PAGE_SHIFT) 1] } := by
  unfold intel_memerr_dhandler
  simp [haddrv, hmiscv, hphys, hrc]

/-- C11 as stated fails: with the address preconditions holding and room in the
report, a retirement request that itself fails (here it returns -1) is made, but
no record is appended: the report stays empty. -/
theorem failed_retirement_not_recorded :
    offline_requests (intel_memerr_dhandler sdm xen_h env_offline_fails
        (hstate.init (sample_binfo 0xAD80000000000134 0x5abc 0x80) MCER_RESET)).trace = [5] ∧
      env_offline_fails.x86_mcinfo_reserve { flags := 0, recovery := [] } = true ∧
      (intel_memerr_dhandler sdm xen_h env_offline_fails
        (hstate.init (sample_binfo 0xAD80000000000134 0x5abc 0x80) MCER_RESET)).binfo.mi
        = some { flags := 0, recovery := [] } := by
  decide

/-- C11, amended: whenever the recovery builder's preconditions hold (so
retirement of frame `mc_addr >> PAGE_SHIFT` is requested), the report is present
and has room, and the retirement request succeeds (returns 0) with flag word
`st`, exactly one record with the observed bank index, action kind PageOffline,
that frame and `st` is appended to the report, whatever flags `st` carries; when
the request fails, the bank observation and its report are left unchanged. -/
theorem pageoff_action_recorded (k : x86_mca_h) (m : memerr_h) (env : extern_env)
    (b : mca_binfo) (r : mce_result) (i : mc_info) (rc : Int) (st : Nat)
    (haddrv : b.mib.mc_status &&& k.MCi_STATUS_ADDRV ≠ 0)
    (hmiscv : b.mib.mc_status &&& k.MCi_STATUS_MISCV ≠ 0)
    (hphys : b.mib.mc_misc &&& k.MCi_MISC_ADDRMOD_MASK = k.MCi_MISC_PHYSMOD)
    (hmi : b.mi = some i) (hroom : env.x86_mcinfo_reserve i = true)
    (hst32 : st < 2 ^ 32)
    (hret : env.offline_page (b.mib.mc_addr >>> m.PAGE_SHIFT) 1 = (rc, st)) :
    (rc = 0 →
        (intel_memerr_dhandler k m env (hstate.init b r)).binfo.mi
          = some { i with recovery := i.recovery ++
              [{ mc_bank := b.bank, action_types := m.MC_ACTION_PAGE_OFFLINE,
                 mfn := b.mib.mc_addr >>> m.PAGE_SHIFT, status := st }] }) ∧
      (rc ≠ 0 → (intel_memerr_dhandler k m env (hstate.init b r)).binfo = b) := by
  refine ⟨?_, ?_⟩
  · intro h0
    subst h0
    rw [memerr_mi_of_offline_ok k m env (hstate.init b r) st haddrv hmiscv hphys hst32 hret]
    simp [mci_add_pageoff_action, hstate.init, hmi, hroom]
  · intro h0
    rw [memerr_of_offline_fail k m env (hstate.init b r) haddrv hmiscv hphys (by
      simpa [hstate.init, hret] using h0)]
    rfl

/-- Witness for C11 amended: a pending, unowned page (flag word 4) leaves the
outcome at the preset but is recorded. -/
theorem pageoff_action_recorded_witness :
    (intel_memerr_dhandler sdm xen_h (env_ok 4)
        (hstate.init (sample_binfo 0xAD80000000000134 0x5abc 0x80) MCER_RESET)).binfo.mi
      = some { flags := 0,
               recovery := [{ mc_bank := 1, action_types := 1, mfn := 5, status := 4 }] } :=
  (pageoff_action_recorded sdm xen_h (env_ok 4) (sample_binfo 0xAD80000000000134 0x5abc 0x80)
    MCER_RESET { flags := 0, recovery := [] } 0 4 (by decide) (by decide) (by decide) rfl rfl
    (by decide) rfl).1 rfl

/-- When the address preconditions hold and the retirement request returns 0
with a flag word that has Pending and Owned set and neither Offlined nor
RetryLater, the builder records the action and enters the notification block. -/
theorem memerr_of_pending_owned (k : x86_mca_h) (m : memerr_h) (env : extern_env)
    (s : hstate) (st : Nat)
    (haddrv : s.binfo.mib.mc_status &&& k.MCi_STATUS_ADDRV ≠ 0)
    (hmiscv : s.binfo.mib.mc_status &&& k.MCi_STATUS_MISCV ≠ 0)
    (hphys : s.binfo.mib.mc_misc &&& k.MCi_MISC_ADDRMOD_MASK = k.MCi_MISC_PHYSMOD)
    (hst32 : st < 2 ^ 32)
    (hret : env.offline_page (s.binfo.mib.mc_addr >>> m.PAGE_SHIFT) 1 = (0, st))
    (hoff : st &&& m.PG_OFFLINE_OFFLINED = 0) (hagain : st &&& m.PG_OFFLINE_AGAIN = 0)
    (hpend : st &&& m.PG_OFFLINE_PENDING ≠ 0) (howned : st &&& m.PG_OFFLINE_OWNED ≠ 0) :
    intel_memerr_dhandler k m env s =
      memerr_notify m env st (s.binfo.mib.mc_addr >>> m.PAGE_SHIFT)
        { binfo := { s.binfo with
            mi := (mci_add_pageoff_action m env s.binfo.bank s.binfo.mi
              (s.binfo.mib.mc_addr >>> m.PAGE_SHIFT) st).2 },
          result := s.result,
          trace := s.trace ++ [event.memerr_enter,
            event.offline_page (s.binfo.mib.mc_addr >>> m.PAGE_SHIFT) 1],
          defect := s.defect } := by
  have hmod : st % 2 ^ 32 = st := Nat.mod_eq_of_lt hst32
  unfold intel_memerr_dhandler
  simp only [haddrv, hmiscv, hphys, hret, hmod, hoff, hagain, hpend, howned, ne_eq,
    not_true_eq_false, not_false_eq_true, or_self, if_false, if_true, List.append_assoc,
    List.singleton_append]

/-- The notification block for an owner that is neither the copy-on-write nor
the hypervisor domain and resolves to domain `d`: if a step fails, `d` is
crashed and the outcome is left as it was; if every step succeeds, the fault is
injected once, `d` is released and the outcome is Recovered.  No domain other
than `d` is crashed in either case. -/
theorem memerr_notify_owner (m : memerr_h) (env : extern_env) (st mfn : Nat) (s : hstate)
    (d : domain)
    (hmfn : mfn = s.binfo.mib.mc_addr >>> m.PAGE_SHIFT)
    (hcow : page_owner m st ≠ m.DOMID_COW) (hxen : page_owner m st ≠ m.DOMID_XEN)
    (hd : env.get_domain_by_id (page_owner m st) = some d) :
    (vmce_step_fails m env s.binfo st d = true →
        (memerr_notify m env st mfn s).result = s.result ∧
        event.domain_crash d ∈ (memerr_notify m env st mfn s).trace) ∧
      (vmce_step_fails m env s.binfo st d = false →
        (memerr_notify m env st mfn s).result = MCER_RECOVERED ∧
        (memerr_notify m env st mfn s).trace
          = s.trace ++ [event.get_domain_by_id (page_owner m st),
              event.get_gpfn_from_mfn (s.binfo.mib.mc_addr >>> m.PAGE_SHIFT),
              event.is_vmce_ready d,
              event.unmmap_broken_page d mfn (guest_frame m env s.binfo),
              event.fill_vmsr_data d
                (guest_addr m (guest_frame m env s.binfo) s.binfo.mib.mc_addr)
                s.binfo.mig.mc_gstatus,
              event.inject_vmce d, event.put_domain d]) ∧
      (∀ d', event.domain_crash d' ∈ (memerr_notify m env st mfn s).trace →
        d' = d ∨ event.domain_crash d' ∈ s.trace) := by
  subst hmfn
  unfold page_owner at hcow hxen hd
  unfold memerr_notify vmce_step_fails guest_frame guest_addr page_owner
  simp only [hcow, hxen, hd, ne_eq, not_false_eq_true, if_true, if_false]
  by_cases h1 : env.is_vmce_ready
      { s.binfo.mib with mc_domid := (st >>> m.PG_OFFLINE_OWNER_SHIFT) % 2 ^ 16 } d = false
  · simp only [h1, if_true]
    simp [vmce_failed]
    tauto
  · simp only [h1, if_false]
    by_cases h2 : env.unmmap_broken_page d (s.binfo.mib.mc_addr >>> m.PAGE_SHIFT)
        (env.get_gpfn_from_mfn (s.binfo.mib.mc_addr >>> m.PAGE_SHIFT) % 2 ^ 64) = 0
    · simp only [h2, not_true_eq_false, if_false]
      by_cases h3 : env.fill_vmsr_data
          { mc_status := s.binfo.mib.mc_status,
            mc_addr := ((env.get_gpfn_from_mfn (s.binfo.mib.mc_addr >>> m.PAGE_SHIFT) % 2 ^ 64)
                <<< m.PAGE_SHIFT) % 2 ^ 64 ||| s.binfo.mib.mc_addr &&& (PAGE_SIZE m - 1),
            mc_misc := s.binfo.mib.mc_misc,
            mc_domid := (st >>> m.PG_OFFLINE_OWNER_SHIFT) % 2 ^ 16 } d s.binfo.mig.mc_gstatus = -1
      · simp only [h3, if_true]
        simp [vmce_failed]
        tauto
      · simp only [h3, if_false]
        by_cases h4 : env.inject_vmce d < 0
        · simp only [h4, if_true]
          simp [vmce_failed]
          tauto
        · simp only [h4, if_false]
          simp [h1, h2, h3, h4]
          tauto
    · simp only [h2, not_false_eq_true, if_true]
      simp [vmce_failed]
      tauto

/-! ### Guest notification -/

/-- C12: let the address preconditions hold and the retirement request return 0
with a flag word that has Pending and Owned set and neither Offlined nor
RetryLater, whose owner is neither DOMID_COW nor DOMID_XEN and resolves to
domain `d`.  Then `d` is crashed if and only if at least one notification step
fails (not ready for vMCE, unmapping fails, building the fault state fails, or
injecting fails); when every step succeeds the fault is injected exactly once,
`d` is not crashed and the outcome is Recovered; and no domain other than `d`
is crashed. -/
theorem notification_escalates (k : x86_mca_h) (m : memerr_h) (env : extern_env)
    (b : mca_binfo) (r : mce_result) (st : Nat) (d : domain)
    (haddrv : b.mib.mc_status &&& k.MCi_STATUS_ADDRV ≠ 0)
    (hmiscv : b.mib.mc_status &&& k.MCi_STATUS_MISCV ≠ 0)
    (hphys : b.mib.mc_misc &&& k.MCi_MISC_ADDRMOD_MASK = k.MCi_MISC_PHYSMOD)
    (hst32 : st < 2 ^ 32)
    (hret : env.offline_page (b.mib.mc_addr >>> m.PAGE_SHIFT) 1 = (0, st))
    (hoff : st &&& m.PG_OFFLINE_OFFLINED = 0) (hagain : st &&& m.PG_OFFLINE_AGAIN = 0)
    (hpend : st &&& m.PG_OFFLINE_PENDING ≠ 0) (howned : st &&& m.PG_OFFLINE_OWNED ≠ 0)
    (hcow : page_owner m st ≠ m.DOMID_COW) (hxen : page_owner m st ≠ m.DOMID_XEN)
    (hd : env.get_domain_by_id (page_owner m st) = some d) :
    (event.domain_crash d ∈ (intel_memerr_dhandler k m env (hstate.init b r)).trace ↔
        vmce_step_fails m env b st d = true) ∧
      (vmce_step_fails m env b st d = false →
        (intel_memerr_dhandler k m env (hstate.init b r)).trace.count (event.inject_vmce d) = 1 ∧
        (intel_memerr_dhandler k m env (hstate.init b r)).result = MCER_RECOVERED) ∧
      (∀ d', event.domain_crash d' ∈ (intel_memerr_dhandler k m env (hstate.init b r)).trace →
        d' = d) := by
  rw [memerr_of_pending_owned k m env (hstate.init b r) st haddrv hmiscv hphys hst32 hret hoff
    hagain hpend howned]
  obtain ⟨hfail, hok, honly⟩ := memerr_notify_owner m env st (b.mib.mc_addr >>> m.PAGE_SHIFT)
    { binfo := { b with
        mi := (mci_add_pageoff_action m env b.bank b.mi (b.mib.mc_addr >>> m.PAGE_SHIFT) st).2 },
      result := r,
      trace := [event.memerr_enter, event.offline_page (b.mib.mc_addr >>> m.PAGE_SHIFT) 1],
      defect := none } d rfl hcow hxen hd
  have hv : vmce_step_fails m env
      { b with
        mi := (mci_add_pageoff_action m env b.bank b.mi (b.mib.mc_addr >>> m.PAGE_SHIFT) st).2 }
      st d = vmce_step_fails m env b st d := rfl
  rw [hv] at hfail hok
  simp only [hstate.init, List.nil_append]
  refine ⟨⟨?_, fun h => (hfail h).2⟩, ?_, ?_⟩
  · intro hc
    by_contra hne
    have hf : vmce_step_fails m env b st d = false := by simpa using hne
    rw [(hok hf).2] at hc
    simp at hc
  · intro hf
    refine ⟨?_, (hok hf).1⟩
    rw [(hok hf).2]
    simp [List.count_cons]
  · intro d' hc
    rcases honly d' hc with h | h
    · exact h
    · simp at h

/-- Witness for C12: a pending page owned by domain 5 (flag word 0x51004); the
guest accepts the fault, so it is injected once and the outcome is Recovered. -/
theorem notification_escalates_witness :
    vmce_step_fails xen_h (env_ok 0x51004) (sample_binfo 0xAD80000000000134 0x5abc 0x80)
        0x51004 { domain_id := 5 } = false ∧
      (intel_memerr_dhandler sdm xen_h (env_ok 0x51004)
          (hstate.init (sample_binfo 0xAD80000000000134 0x5abc 0x80) MCER_RESET)).trace.count
          (event.inject_vmce { domain_id := 5 }) = 1 ∧
      (intel_memerr_dhandler sdm xen_h (env_ok 0x51004)
          (hstate.init (sample_binfo 0xAD80000000000134 0x5abc 0x80) MCER_RESET)).result
        = MCER_RECOVERED :=
  ⟨by decide,
    (notification_escalates sdm xen_h (env_ok 0x51004)
      (sample_binfo 0xAD80000000000134 0x5abc 0x80) MCER_RESET 0x51004 { domain_id := 5 }
      (by decide) (by decide) (by decide) (by decide) (by decide) (by decide) (by decide)
      (by decide) (by decide) (by decide) (by decide) (by decide)).2.1 (by decide)⟩

/-- C13 as stated fails: a pending page owned by domain 5 whose guest rejects the
injected fault.  The guest is crashed, but the outcome is the handler preset:
Reset through `intel_srar_dhandler` and Continue through `intel_srao_dhandler`,
in neither case Recovered. -/
theorem rejected_injection_outcome_not_recovered :
    event.domain_crash { domain_id := 5 } ∈ (intel_srar_dhandler sdm xen_h (env_inject_fails 0x51004)
        (hstate.init (sample_binfo 0xAD80000000000134 0x5abc 0x80) MCER_CONTINUE)).trace ∧
      (intel_srar_dhandler sdm xen_h (env_inject_fails 0x51004)
        (hstate.init (sample_binfo 0xAD80000000000134 0x5abc 0x80) MCER_CONTINUE)).result
        = MCER_RESET ∧
      event.domain_crash { domain_id := 5 } ∈ (intel_srao_dhandler sdm xen_h (env_inject_fails 0x51004)
        (hstate.init (sample_binfo 0xAD000000000000C5 0x5abc 0x80) MCER_RESET)).trace ∧
      (intel_srao_dhandler sdm xen_h (env_inject_fails 0x51004)
        (hstate.init (sample_binfo 0xAD000000000000C5 0x5abc 0x80) MCER_RESET)).result
        = MCER_CONTINUE := by
  decide

/-- C13, amended: when retirement returns Pending with an owning guest and a
notification step fails, the guest is crashed and the outcome is the one preset
by the calling handler: Continue when the builder was reached through
`intel_srao_dhandler`, Reset when it was reached through `intel_srar_dhandler`. -/
theorem failed_notification_keeps_preset (k : x86_mca_h) (m : memerr_h) (env : extern_env)
    (b : mca_binfo) (r : mce_result) (st : Nat) (d : domain)
    (haddrv : b.mib.mc_status &&& k.MCi_STATUS_ADDRV ≠ 0)
    (hmiscv : b.mib.mc_status &&& k.MCi_STATUS_MISCV ≠ 0)
    (hphys : b.mib.mc_misc &&& k.MCi_MISC_ADDRMOD_MASK = k.MCi_MISC_PHYSMOD)
    (hst32 : st < 2 ^ 32)
    (hret : env.offline_page (b.mib.mc_addr >>> m.PAGE_SHIFT) 1 = (0, st))
    (hoff : st &&& m.PG_OFFLINE_OFFLINED = 0) (hagain : st &&& m.PG_OFFLINE_AGAIN = 0)
    (hpend : st &&& m.PG_OFFLINE_PENDING ≠ 0) (howned : st &&& m.PG_OFFLINE_OWNED ≠ 0)
    (hcow : page_owner m st ≠ m.DOMID_COW) (hxen : page_owner m st ≠ m.DOMID_XEN)
    (hd : env.get_domain_by_id (page_owner m st) = some d)
    (hfails : vmce_step_fails m env b st d = true) :
    (event.memerr_enter ∈ (intel_srao_dhandler k m env (hstate.init b r)).trace →
        event.domain_crash d ∈ (intel_srao_dhandler k m env (hstate.init b r)).trace ∧
        (intel_srao_dhandler k m env (hstate.init b r)).result = MCER_CONTINUE) ∧
      (event.memerr_enter ∈ (intel_srar_dhandler k m env (hstate.init b r)).trace →
        event.domain_crash d ∈ (intel_srar_dhandler k m env (hstate.init b r)).trace ∧
        (intel_srar_dhandler k m env (hstate.init b r)).result = MCER_RESET) := by
  have key : ∀ r' : mce_result,
      event.domain_crash d ∈ (intel_memerr_dhandler k m env
          { binfo := b, result := r', trace := [], defect := none }).trace ∧
        (intel_memerr_dhandler k m env
          { binfo := b, result := r', trace := [], defect := none }).result = r' := by
    intro r'
    rw [memerr_of_pending_owned k m env { binfo := b, result := r', trace := [], defect := none }
      st haddrv hmiscv hphys hst32 hret hoff hagain hpend howned]
    obtain ⟨hfail, -, -⟩ := memerr_notify_owner m env st (b.mib.mc_addr >>> m.PAGE_SHIFT)
      { binfo := { b with
          mi := (mci_add_pageoff_action m env b.bank b.mi (b.mib.mc_addr >>> m.PAGE_SHIFT) st).2 },
        result := r',
        trace := [] ++ [event.memerr_enter, event.offline_page (b.mib.mc_addr >>> m.PAGE_SHIFT) 1],
        defect := none } d rfl hcow hxen hd
    exact ⟨(hfail hfails).2, (hfail hfails).1⟩
  refine ⟨?_, ?_⟩
  · intro hreach
    obtain ⟨hval, hcode⟩ := (srao_reaches_iff k m env b r).1 hreach
    simp only [intel_srao_dhandler, hstate.init, hval, hcode, ne_eq, not_false_eq_true, if_true]
    exact key MCER_CONTINUE
  · intro hreach
    have hcode := (srar_reaches_iff k m env b r).1 hreach
    simp only [intel_srar_dhandler, hstate.init, hcode, if_true]
    exact key MCER_RESET

/-- Witness for C13 amended: the guest of domain 5 rejects the injected fault on
the SRAR path; it is crashed and the outcome stays Reset. -/
theorem failed_notification_keeps_preset_witness :
    event.domain_crash { domain_id := 5 } ∈ (intel_srar_dhandler sdm xen_h (env_inject_fails 0x51004)
        (hstate.init (sample_binfo 0xAD80000000000134 0x5abc 0x80) MCER_CONTINUE)).trace ∧
      (intel_srar_dhandler sdm xen_h (env_inject_fails 0x51004)
        (hstate.init (sample_binfo 0xAD80000000000134 0x5abc 0x80) MCER_CONTINUE)).result
        = MCER_RESET :=
  (failed_notification_keeps_preset sdm xen_h (env_inject_fails 0x51004)
    (sample_binfo 0xAD80000000000134 0x5abc 0x80) MCER_CONTINUE 0x51004 { domain_id := 5 }
    (by decide) (by decide) (by decide) (by decide) (by decide) (by decide) (by decide)
    (by decide) (by decide) (by decide) (by decide) (by decide) (by decide)).2 (by decide)

/-! ### Address rewrite -/

/-- Every fault-state construction logged by the notification block receives the
rewritten address, and whenever the block injects a fault the bank it leaves
behind carries that address. -/
theorem memerr_notify_addr (m : memerr_h) (env : extern_env) (st mfn : Nat) (s : hstate) :
    (∀ d a g, event.fill_vmsr_data d a g ∈ (memerr_notify m env st mfn s).trace →
        event.fill_vmsr_data d a g ∈ s.trace ∨
          a = guest_addr m (guest_frame m env s.binfo) s.binfo.mib.mc_addr) ∧
      (∀ d, event.inject_vmce d ∈ (memerr_notify m env st mfn s).trace →
        event.inject_vmce d ∈ s.trace ∨
          ((memerr_notify m env st mfn s).binfo.mib.mc_addr
              = guest_addr m (guest_frame m env s.binfo) s.binfo.mib.mc_addr ∧
            event.fill_vmsr_data d
                (guest_addr m (guest_frame m env s.binfo) s.binfo.mib.mc_addr)
                s.binfo.mig.mc_gstatus ∈ (memerr_notify m env st mfn s).trace)) := by
  unfold memerr_notify guest_addr guest_frame
  simp only []
  split_ifs
  · exact ⟨fun _ _ _ h => Or.inl h, fun _ h => Or.inl h⟩
  · split
    · simp only [List.mem_append, List.mem_singleton]
      refine ⟨fun _ _ _ h => ?_, fun _ h => ?_⟩ <;> simp at h <;> tauto
    · split_ifs <;> simp [vmce_failed] <;> tauto
  · exact ⟨fun _ _ _ h => Or.inl h, fun _ h => Or.inl h⟩

/-- Arithmetic of the rewritten address: for a guest frame below
`2 ^ (64 - PAGE_SHIFT)` the low `PAGE_SHIFT` bits are those of the old address
and the frame number is the guest frame. -/
theorem guest_addr_bits (m : memerr_h) (gfn old : Nat) (h : gfn < 2 ^ (64 - m.PAGE_SHIFT)) :
    guest_addr m gfn old % 2 ^ m.PAGE_SHIFT = old % 2 ^ m.PAGE_SHIFT ∧
      guest_addr m gfn old >>> m.PAGE_SHIFT = gfn := by
  have hlt : gfn * 2 ^ m.PAGE_SHIFT < 2 ^ 64 := by
    by_cases hp : m.PAGE_SHIFT ≤ 64
    · calc gfn * 2 ^ m.PAGE_SHIFT < 2 ^ (64 - m.PAGE_SHIFT) * 2 ^ m.PAGE_SHIFT :=
            Nat.mul_lt_mul_of_pos_right h (Nat.two_pow_pos _)
        _ = 2 ^ 64 := by rw [← Nat.pow_add, Nat.sub_add_cancel hp]
    · have h0 : 64 - m.PAGE_SHIFT = 0 := by omega
      rw [h0] at h
      have : gfn = 0 := by omega
      subst this
      simp
  have hc : old % 2 ^ m.PAGE_SHIFT < 2 ^ m.PAGE_SHIFT := Nat.mod_lt _ (Nat.two_pow_pos _)
  have hform : guest_addr m gfn old = 2 ^ m.PAGE_SHIFT * gfn + old % 2 ^ m.PAGE_SHIFT := by
    unfold guest_addr PAGE_SIZE
    rw [Nat.one_shiftLeft, Nat.and_pow_two_sub_one_eq_mod, Nat.shiftLeft_eq,
      Nat.mod_eq_of_lt hlt, Nat.mul_comm gfn, ← Nat.mul_add_lt_is_or hc]
  rw [hform, Nat.shiftRight_eq_div_pow]
  refine ⟨?_, ?_⟩
  · rw [Nat.mul_add_mod, Nat.mod_mod]
  · rw [Nat.mul_add_div (Nat.two_pow_pos _), Nat.div_eq_of_lt hc, Nat.add_zero]

/-- C14: on the notification path the address handed to fault-state construction
is `(gfn << PAGE_SHIFT) | (old_addr & (PAGE_SIZE - 1))` in 64-bit arithmetic,
with `gfn` the guest frame of the faulting host frame, and whenever a fault is
injected the bank carries that address; for every old address and every
`gfn < 2 ^ (64 - PAGE_SHIFT)` its low `PAGE_SHIFT` bits are those of the old
address and its frame number is `gfn`, so no host frame bit survives. -/
theorem guest_address_rewrite (k : x86_mca_h) (m : memerr_h) (env : extern_env)
    (b : mca_binfo) (r : mce_result) :
    (∀ d a g, event.fill_vmsr_data d a g ∈
          (intel_memerr_dhandler k m env (hstate.init b r)).trace →
        a = ((guest_frame m env b <<< m.PAGE_SHIFT) % 2 ^ 64)
              ||| (b.mib.mc_addr &&& (PAGE_SIZE m - 1))) ∧
      (∀ d, event.inject_vmce d ∈ (intel_memerr_dhandler k m env (hstate.init b r)).trace →
        (intel_memerr_dhandler k m env (hstate.init b r)).binfo.mib.mc_addr
            = guest_addr m (guest_frame m env b) b.mib.mc_addr ∧
          event.fill_vmsr_data d (guest_addr m (guest_frame m env b) b.mib.mc_addr)
              b.mig.mc_gstatus ∈ (intel_memerr_dhandler k m env (hstate.init b r)).trace) ∧
      (∀ gfn old : Nat, gfn < 2 ^ (64 - m.PAGE_SHIFT) →
        guest_addr m gfn old % 2 ^ m.PAGE_SHIFT = old % 2 ^ m.PAGE_SHIFT ∧
          guest_addr m gfn old >>> m.PAGE_SHIFT = gfn) := by
  refine ⟨?_, ?_, fun gfn old h => guest_addr_bits m gfn old h⟩
  · intro d a g
    unfold intel_memerr_dhandler
    simp only [hstate.init]
    split_ifs
    any_goals simp
    intro h
    rcases (memerr_notify_addr m env _ _ _).1 d a g h with h' | h'
    · simp at h'
    · exact h'
  · intro d
    unfold intel_memerr_dhandler
    simp only [hstate.init]
    split_ifs
    any_goals simp
    intro h
    rcases (memerr_notify_addr m env _ _ _).2 d h with h' | h'
    · simp at h'
    · exact h'

/-- Witness for C14: host address 0x5abc in a page owned by domain 5, whose guest
frame is 0x77; the fault state is built for guest address 0x77abc. -/
theorem guest_address_rewrite_witness :
    event.fill_vmsr_data { domain_id := 5 } 0x77abc 0 ∈
        (intel_memerr_dhandler sdm xen_h
          { env_ok 0x51004 with get_gpfn_from_mfn := fun _ => 0x77 }
          (hstate.init (sample_binfo 0xAD80000000000134 0x5abc 0x80) MCER_RESET)).trace ∧
      guest_addr xen_h 0x77 0x5abc % 2 ^ xen_h.PAGE_SHIFT = 0x5abc % 2 ^ xen_h.PAGE_SHIFT ∧
      guest_addr xen_h 0x77 0x5abc >>> xen_h.PAGE_SHIFT = 0x77 :=
  ⟨by decide,
    (guest_address_rewrite sdm xen_h { env_ok 0x51004 with get_gpfn_from_mfn := fun _ => 0x77 }
      (sample_binfo 0xAD80000000000134 0x5abc 0x80) MCER_RESET).2.2 0x77 0x5abc (by decide)⟩

/-! ### Bank-clear policy -/

/-- C15: for every status with UNCORRECTED and PROCESSOR_CONTEXT_CORRUPT both set,
and either value of `ser_support`, `intel_need_clearbank_scan(MCA_MCE_SCAN,
status)` returns 0, whatever the other bits are. -/
theorem need_clearbank_mce_scan_fatal (k : x86_mca_h) (ser_support : Bool) (status : Nat)
    (huc : status &&& k.MCi_STATUS_UC ≠ 0) (hpcc : status &&& k.MCi_STATUS_PCC ≠ 0) :
    intel_need_clearbank_scan k ser_support mca_source.MCA_MCE_SCAN status = 0 := by
  cases ser_support <;> simp [intel_need_clearbank_scan, huc, hpcc]

/-- Witness for C15: VALID, UNCORRECTED and PCC set, with software recovery
supported. -/
theorem need_clearbank_mce_scan_fatal_witness :
    intel_need_clearbank_scan sdm true mca_source.MCA_MCE_SCAN 0xA200000000000000 = 0 :=
  need_clearbank_mce_scan_fatal sdm true 0xA200000000000000 (by decide) (by decide)

/-- C16: for every status and either value of `ser_support`,
`intel_need_clearbank_scan(MCA_MCE_SCAN, status)` returns 1 if and only if
`ser_support` is set, the status is not fatal-shaped (not both UC and PCC), UC is
set, and it is spurious (OVER and EN unset), or SRAR-shaped with OVER unset (S
and AR set), or SRAO-shaped (S set, AR unset); otherwise it returns 0, in
particular for every status when `ser_support` is unset. -/
theorem need_clearbank_mce_scan_iff (k : x86_mca_h) (ser_support : Bool) (status : Nat) :
    (intel_need_clearbank_scan k ser_support mca_source.MCA_MCE_SCAN status = 1 ↔
        (ser_support = true ∧
          ¬ (status &&& k.MCi_STATUS_UC ≠ 0 ∧ status &&& k.MCi_STATUS_PCC ≠ 0) ∧
          status &&& k.MCi_STATUS_UC ≠ 0 ∧
          ((status &&& k.MCi_STATUS_OVER = 0 ∧ status &&& k.MCi_STATUS_EN = 0) ∨
            (status &&& k.MCi_STATUS_S ≠ 0 ∧ status &&& k.MCi_STATUS_AR ≠ 0 ∧
              status &&& k.MCi_STATUS_OVER = 0) ∨
            (status &&& k.MCi_STATUS_S ≠ 0 ∧ status &&& k.MCi_STATUS_AR = 0)))) ∧
      (intel_need_clearbank_scan k ser_support mca_source.MCA_MCE_SCAN status = 1 ∨
        intel_need_clearbank_scan k ser_support mca_source.MCA_MCE_SCAN status = 0) ∧
      intel_need_clearbank_scan k false mca_source.MCA_MCE_SCAN status = 0 := by
  unfold intel_need_clearbank_scan
  cases ser_support <;>
  by_cases h1 : status &&& k.MCi_STATUS_UC = 0 <;>
  by_cases h2 : status &&& k.MCi_STATUS_PCC = 0 <;>
  by_cases h3 : status &&& k.MCi_STATUS_OVER = 0 <;>
  by_cases h4 : status &&& k.MCi_STATUS_EN = 0 <;>
  by_cases h5 : status &&& k.MCi_STATUS_S = 0 <;>
  by_cases h6 : status &&& k.MCi_STATUS_AR = 0 <;>
  simp [h1, h2, h3, h4, h5, h6]

/-- C17: for every status and either value of `ser_support`,
`intel_need_clearbank_scan(MCA_CMCI_HANDLER, status)` returns 1 if and only if UC
is unset, or `ser_support` is set with OVER and EN unset (spurious), or
`ser_support` is set with OVER unset and PCC, S and AR all unset (UCNA-shaped);
otherwise it returns 0. -/
theorem need_clearbank_cmci_iff (k : x86_mca_h) (ser_support : Bool) (status : Nat) :
    (intel_need_clearbank_scan k ser_support mca_source.MCA_CMCI_HANDLER status = 1 ↔
        (status &&& k.MCi_STATUS_UC = 0 ∨
          (ser_support = true ∧ status &&& k.MCi_STATUS_OVER = 0 ∧
            status &&& k.MCi_STATUS_EN = 0) ∨
          (ser_support = true ∧ status &&& k.MCi_STATUS_OVER = 0 ∧
            status &&& k.MCi_STATUS_PCC = 0 ∧ status &&& k.MCi_STATUS_S = 0 ∧
            status &&& k.MCi_STATUS_AR = 0))) ∧
      (intel_need_clearbank_scan k ser_support mca_source.MCA_CMCI_HANDLER status = 1 ∨
        intel_need_clearbank_scan k ser_support mca_source.MCA_CMCI_HANDLER status = 0) := by
  unfold intel_need_clearbank_scan
  cases ser_support <;>
  by_cases h1 : status &&& k.MCi_STATUS_UC = 0 <;>
  by_cases h2 : status &&& k.MCi_STATUS_PCC = 0 <;>
  by_cases h3 : status &&& k.MCi_STATUS_OVER = 0 <;>
  by_cases h4 : status &&& k.MCi_STATUS_EN = 0 <;>
  by_cases h5 : status &&& k.MCi_STATUS_S = 0 <;>
  by_cases h6 : status &&& k.MCi_STATUS_AR = 0 <;>
  simp [h1, h2, h3, h4, h5, h6]

/-! ### Bit facts for the interrupt-control register -/

/-- Clearing with `& ~mask` leaves no bit of `sub` when `sub` lies inside `mask`. -/
theorem and_not64_and_eq_zero (v mask sub : Nat) (h : sub &&& mask = sub) :
    (v &&& not64 mask) &&& sub = 0 := by
  apply Nat.eq_of_testBit_eq
  intro j
  have hj := congrArg (fun x => Nat.testBit x j) h
  simp only [Nat.testBit_and] at hj
  simp only [not64, Nat.testBit_and, Nat.testBit_xor, Nat.testBit_two_pow_sub_one,
    Nat.testBit_mod_two_pow, Nat.zero_testBit]
  cases hv : v.testBit j <;> cases hm : mask.testBit j <;> cases hs : sub.testBit j <;>
    by_cases h64 : j < 64 <;> simp_all

/-- Clearing with `& ~mask` keeps every bit of a 64-bit value that is outside `mask`. -/
theorem and_not64_testBit (v mask j : Nat) (hv : v < 2 ^ 64) (hm : mask.testBit j = false) :
    (v &&& not64 mask).testBit j = v.testBit j := by
  simp only [not64, Nat.testBit_and, Nat.testBit_xor, Nat.testBit_two_pow_sub_one,
    Nat.testBit_mod_two_pow]
  by_cases h64 : j < 64
  · simp [h64, hm]
  · have : v.testBit j = false :=
      Nat.testBit_lt_two_pow (lt_of_lt_of_le hv (Nat.pow_le_pow_right (by decide) (by omega)))
    simp [this]

/-- A value with no bit of `mask` is unchanged by `& ~mask` when it is 64-bit. -/
theorem and_not64_eq_self (v mask : Nat) (hv : v < 2 ^ 64) (h : v &&& mask = 0) :
    v &&& not64 mask = v := by
  apply Nat.eq_of_testBit_eq
  intro j
  have hj := congrArg (fun x => Nat.testBit x j) h
  simp only [Nat.testBit_and, Nat.zero_testBit] at hj
  simp only [not64, Nat.testBit_and, Nat.testBit_xor, Nat.testBit_two_pow_sub_one,
    Nat.testBit_mod_two_pow]
  by_cases h64 : j < 64
  · cases hv' : v.testBit j <;> cases hm : mask.testBit j <;> simp_all
  · have : v.testBit j = false :=
      Nat.testBit_lt_two_pow (lt_of_lt_of_le hv (Nat.pow_le_pow_right (by decide) (by omega)))
    simp [this]

/-- The value written by the probe has `CMCI_EN` set. -/
theorem or_en_and_en (x en t : Nat) (h : en ≠ 0) : (x ||| en ||| t) &&& en ≠ 0 := by
  have : (x ||| en ||| t) &&& en = en := by
    apply Nat.eq_of_testBit_eq
    intro j
    simp only [Nat.testBit_and, Nat.testBit_or]
    cases x.testBit j <;> cases en.testBit j <;> cases t.testBit j <;> rfl
  rw [this]
  exact h

/-- A bit set under `en` is set under `en | mask`. -/
theorem and_or_ne_zero (v en mask : Nat) (h : v &&& en ≠ 0) : v &&& (en ||| mask) ≠ 0 := by
  intro h0
  apply h
  apply Nat.eq_of_testBit_eq
  intro j
  have hj := congrArg (fun x => Nat.testBit x j) h0
  simp only [Nat.testBit_and, Nat.testBit_or, Nat.zero_testBit] at hj ⊢
  cases hv : v.testBit j <;> cases he : en.testBit j <;> simp_all

/-- Submask facts: `en` and `mask` both lie inside `en | mask`. -/
theorem and_or_self_left (en mask : Nat) : en &&& (en ||| mask) = en ∧
    mask &&& (en ||| mask) = mask := by
  constructor <;>
  · apply Nat.eq_of_testBit_eq
    intro j
    simp only [Nat.testBit_and, Nat.testBit_or]
    cases en.testBit j <;> cases mask.testBit j <;> rfl

/-! ### Ownership invariant -/

/-- The invariant of a bank depends only on its register and on who owns it. -/
theorem bank_inv_congr (c : cmci_h) (s t : cmci_state) (i : Nat)
    (hctl : t.ctl2 i = s.ctl2 i)
    (hown : ∀ cpu, i ∈ t.mce_banks_owned cpu ↔ i ∈ s.mce_banks_owned cpu)
    (h : bank_inv c s i) : bank_inv c t i := by
  obtain ⟨h1, h2, h3⟩ := h
  refine ⟨?_, ?_, ?_⟩
  · intro cpu hm
    rw [hctl]
    exact h1 cpu ((hown cpu).1 hm)
  · intro cpu1 cpu2 hm1 hm2
    exact h2 cpu1 cpu2 ((hown cpu1).1 hm1) ((hown cpu2).1 hm2)
  · intro hen
    rw [hctl] at hen
    obtain ⟨cpu, hc⟩ := h3 hen
    exact ⟨cpu, (hown cpu).2 hc⟩

/-- A discovery iteration for bank `j` touches neither the register nor the
ownership of any other bank. -/
theorem cmci_discover_step_frame (c : cmci_h) (capable : Nat → Bool) (cpu j i : Nat)
    (s : cmci_state) (hij : i ≠ j) :
    (cmci_discover_step c capable cpu s j).ctl2 i = s.ctl2 i ∧
      ∀ cpu', i ∈ (cmci_discover_step c capable cpu s j).mce_banks_owned cpu' ↔
        i ∈ s.mce_banks_owned cpu' := by
  unfold cmci_discover_step do_cmci_discover
  simp only []
  split_ifs <;> refine ⟨by simp [Function.update_apply, hij], fun cpu' => ?_⟩ <;>
    by_cases hc : cpu' = cpu <;> simp [Function.update_apply, hc, hij]

/-- A discovery iteration for bank `j` keeps the invariant of bank `j`, keeps an
existing owner, and gives a bank that supports threshold interrupts an owner. -/
theorem cmci_discover_step_self (c : cmci_h) (capable : Nat → Bool) (cpu j : Nat)
    (s : cmci_state) (hen : c.CMCI_EN ≠ 0) (h : bank_inv c s j) :
    bank_inv c (cmci_discover_step c capable cpu s j) j ∧
      ((∃ cpu', j ∈ s.mce_banks_owned cpu') →
        ∃ cpu', j ∈ (cmci_discover_step c capable cpu s j).mce_banks_owned cpu') ∧
      (capable j = true →
        ∃ cpu', j ∈ (cmci_discover_step c capable cpu s j).mce_banks_owned cpu') := by
  obtain ⟨h1, h2, h3⟩ := h
  unfold cmci_discover_step
  by_cases hown : j ∈ s.mce_banks_owned cpu
  · simp only [hown, if_true]
    exact ⟨⟨h1, h2, h3⟩, fun h => h, fun _ => ⟨cpu, hown⟩⟩
  · simp only [hown, if_false]
    unfold do_cmci_discover
    simp only []
    by_cases he : s.ctl2 j &&& c.CMCI_EN ≠ 0
    · -- some other processor owns the bank
      simp only [he, ne_eq, not_false_eq_true, if_true]
      have hmem : ∀ cpu', j ∈ Function.update s.mce_banks_owned cpu
          ((s.mce_banks_owned cpu).erase j) cpu' ↔ j ∈ s.mce_banks_owned cpu' := by
        intro cpu'
        by_cases hc : cpu' = cpu
        · subst hc
          simp [hown]
        · simp [Function.update_apply, hc]
      have hex : ∃ cpu', j ∈ Function.update s.mce_banks_owned cpu
          ((s.mce_banks_owned cpu).erase j) cpu' := by
        obtain ⟨o, ho⟩ := h3 he
        exact ⟨o, (hmem o).2 ho⟩
      refine ⟨⟨?_, ?_, ?_⟩, fun _ => hex, fun _ => hex⟩
      · intro cpu' hm
        exact he
      · intro cpu1 cpu2 hm1 hm2
        exact h2 cpu1 cpu2 ((hmem cpu1).1 hm1) ((hmem cpu2).1 hm2)
      · intro _
        exact hex
    · have he0 : s.ctl2 j &&& c.CMCI_EN = 0 := by simpa using he
      have hnone : ∀ cpu', j ∉ s.mce_banks_owned cpu' := fun cpu' hm => h1 cpu' hm he0
      simp only [he0, ne_eq, not_true_eq_false, if_false, Function.update_same]
      by_cases hcap : capable j = true
      · -- the write is retained: this processor becomes the owner
        have hw : wrmsr_ctl2 c capable j
            (s.ctl2 j &&& not64 c.CMCI_THRESHOLD_MASK ||| c.CMCI_EN ||| c.CMCI_THRESHOLD)
              &&& c.CMCI_EN ≠ 0 := by
          simp only [wrmsr_ctl2, hcap, if_true]
          exact or_en_and_en _ _ _ hen
        simp only [hw, if_false]
        have hex : ∃ cpu', j ∈ Function.update s.mce_banks_owned cpu
            (insert j (s.mce_banks_owned cpu)) cpu' := ⟨cpu, by simp⟩
        refine ⟨⟨?_, ?_, ?_⟩, fun _ => hex, fun _ => hex⟩
        · intro cpu' _
          simpa using hw
        · intro cpu1 cpu2 hm1 hm2
          by_cases hc1 : cpu1 = cpu
          · by_cases hc2 : cpu2 = cpu
            · rw [hc1, hc2]
            · simp [Function.update_apply, hc2] at hm2
              exact absurd hm2 (hnone cpu2)
          · simp [Function.update_apply, hc1] at hm1
            exact absurd hm1 (hnone cpu1)
        · intro _
          exact hex
      · -- the bank does not retain CMCI_EN: nobody owns it
        have hw : wrmsr_ctl2 c capable j
            (s.ctl2 j &&& not64 c.CMCI_THRESHOLD_MASK ||| c.CMCI_EN ||| c.CMCI_THRESHOLD)
              &&& c.CMCI_EN = 0 := by
          simp only [wrmsr_ctl2, hcap, if_false]
          exact and_not64_and_eq_zero _ _ _ (Nat.and_self _)
        simp only [hw, if_true]
        refine ⟨⟨?_, ?_, ?_⟩, ?_, fun h => absurd h hcap⟩
        · intro cpu' hm
          exact absurd hm (hnone cpu')
        · intro cpu1 cpu2 hm1 _
          exact absurd hm1 (hnone cpu1)
        · intro hne
          simp [hw] at hne
        · rintro ⟨o, ho⟩
          exact absurd ho (hnone o)

/-- A discovery iteration keeps the invariant of every bank, keeps every
existing owner, and gives its bank an owner when the bank supports threshold
interrupts. -/
theorem cmci_discover_step_inv (c : cmci_h) (capable : Nat → Bool) (cpu j : Nat)
    (s : cmci_state) (hen : c.CMCI_EN ≠ 0) (h : ∀ i, bank_inv c s i) :
    (∀ i, bank_inv c (cmci_discover_step c capable cpu s j) i) ∧
      (∀ i, (∃ cpu', i ∈ s.mce_banks_owned cpu') →
        ∃ cpu', i ∈ (cmci_discover_step c capable cpu s j).mce_banks_owned cpu') ∧
      (capable j = true →
        ∃ cpu', j ∈ (cmci_discover_step c capable cpu s j).mce_banks_owned cpu') := by
  obtain ⟨hself, hkeep, hnew⟩ := cmci_discover_step_self c capable cpu j s hen (h j)
  refine ⟨?_, ?_, hnew⟩
  · intro i
    by_cases hij : i = j
    · subst hij
      exact hself
    · obtain ⟨hc, ho⟩ := cmci_discover_step_frame c capable cpu j i s hij
      exact bank_inv_congr c s _ i hc ho (h i)
  · intro i hi
    by_cases hij : i = j
    · subst hij
      exact hkeep hi
    · obtain ⟨_, ho⟩ := cmci_discover_step_frame c capable cpu j i s hij
      obtain ⟨o, hm⟩ := hi
      exact ⟨o, (ho o).2 hm⟩

/-- A run of discovery iterations over a list of banks keeps the invariant of
every bank, keeps every existing owner, and leaves every listed bank that
supports threshold interrupts with an owner. -/
theorem cmci_discover_fold_inv (c : cmci_h) (capable : Nat → Bool) (cpu : Nat)
    (hen : c.CMCI_EN ≠ 0) (l : List Nat) :
    ∀ s : cmci_state, (∀ i, bank_inv c s i) →
      (∀ i, bank_inv c (l.foldl (cmci_discover_step c capable cpu) s) i) ∧
        (∀ i, (∃ cpu', i ∈ s.mce_banks_owned cpu') →
          ∃ cpu', i ∈ (l.foldl (cmci_discover_step c capable cpu) s).mce_banks_owned cpu') ∧
        (∀ j ∈ l, capable j = true →
          ∃ cpu', j ∈ (l.foldl (cmci_discover_step c capable cpu) s).mce_banks_owned cpu') := by
  induction l with
  | nil =>
    intro s h
    exact ⟨h, fun _ hi => hi, fun j hj => absurd hj (List.not_mem_nil j)⟩
  | cons j l ih =>
    intro s h
    obtain ⟨hinv, hkeep, hnew⟩ := cmci_discover_step_inv c capable cpu j s hen h
    obtain ⟨ih1, ih2, ih3⟩ := ih (cmci_discover_step c capable cpu s j) hinv
    simp only [List.foldl_cons]
    refine ⟨ih1, fun i hi => ih2 i (hkeep i hi), ?_⟩
    intro j' hj' hcap
    rcases List.mem_cons.1 hj' with rfl | hmem
    · exact ih2 j' (hnew hcap)
    · exact ih3 j' hmem hcap

/-- A release iteration for bank `j` touches neither the register nor the
ownership of any other bank, and no other processor's ownership of `j`. -/
theorem clear_cmci_step_frame (c : cmci_h) (capable : Nat → Bool) (cpu j i : Nat)
    (s : cmci_state) (hij : i ≠ j) :
    (clear_cmci_step c capable cpu s j).ctl2 i = s.ctl2 i ∧
      ∀ cpu', i ∈ (clear_cmci_step c capable cpu s j).mce_banks_owned cpu' ↔
        i ∈ s.mce_banks_owned cpu' := by
  unfold clear_cmci_step
  simp only []
  split_ifs <;> refine ⟨by simp [Function.update_apply, hij], fun cpu' => ?_⟩ <;>
    by_cases hc : cpu' = cpu <;> simp [Function.update_apply, hc, hij]

/-- A release iteration keeps the invariant of every bank. -/
theorem clear_cmci_step_inv (c : cmci_h) (capable : Nat → Bool) (cpu j : Nat)
    (s : cmci_state) (h : ∀ i, bank_inv c s i) :
    ∀ i, bank_inv c (clear_cmci_step c capable cpu s j) i := by
  intro i
  by_cases hij : i = j
  · subst hij
    obtain ⟨h1, h2, h3⟩ := h i
    unfold clear_cmci_step
    by_cases hown : i ∈ s.mce_banks_owned cpu
    · have he := and_or_ne_zero _ _ c.CMCI_THRESHOLD_MASK (h1 cpu hown)
      simp only [hown, not_true_eq_false, if_false, he, ne_eq, not_false_eq_true, if_true]
      have hnone : ∀ cpu', i ∉ Function.update s.mce_banks_owned cpu
          ((s.mce_banks_owned cpu).erase i) cpu' := by
        intro cpu' hm
        by_cases hc : cpu' = cpu
        · subst hc
          simp at hm
        · simp [Function.update_apply, hc] at hm
          exact hc (h2 cpu' cpu hm hown)
      have hclr : wrmsr_ctl2 c capable i
          (s.ctl2 i &&& not64 (c.CMCI_EN ||| c.CMCI_THRESHOLD_MASK)) &&& c.CMCI_EN = 0 := by
        unfold wrmsr_ctl2
        split_ifs
        · exact and_not64_and_eq_zero _ _ _ (and_or_self_left _ _).1
        · exact and_not64_and_eq_zero _ _ _ (Nat.and_self _)
      refine ⟨?_, ?_, ?_⟩
      · intro cpu' hm
        exact absurd hm (hnone cpu')
      · intro cpu1 _ hm1 _
        exact absurd hm1 (hnone cpu1)
      · intro hne
        simp [hclr] at hne
    · simp only [hown, not_false_eq_true, if_true]
      exact ⟨h1, h2, h3⟩
  · obtain ⟨hc, ho⟩ := clear_cmci_step_frame c capable cpu j i s hij
    exact bank_inv_congr c s _ i hc ho (h i)

/-- A run of release iterations keeps the invariant of every bank. -/
theorem clear_cmci_fold_inv (c : cmci_h) (capable : Nat → Bool) (cpu : Nat) (l : List Nat) :
    ∀ s : cmci_state, (∀ i, bank_inv c s i) →
      ∀ i, bank_inv c (l.foldl (clear_cmci_step c capable cpu) s) i := by
  induction l with
  | nil => intro s h; exact h
  | cons j l ih =>
    intro s h
    simp only [List.foldl_cons]
    exact ih _ (clear_cmci_step_inv c capable cpu j s h)

/-- Every reachable state satisfies the ownership invariant of every bank. -/
theorem cmci_reachable_inv (c : cmci_h) (capable : Nat → Bool) (cmci_support : Bool)
    (mce_disabled : Int) (nr_mce_banks : Nat) (hen : c.CMCI_EN ≠ 0) (s : cmci_state)
    (hs : cmci_reachable c capable cmci_support mce_disabled nr_mce_banks s) :
    ∀ i, bank_inv c s i := by
  induction hs with
  | init s h =>
    intro i
    refine ⟨?_, ?_, ?_⟩
    · intro cpu hm
      rw [h.2 cpu] at hm
      simp at hm
    · intro cpu1 _ hm _
      rw [h.2 cpu1] at hm
      simp at hm
    · intro hne
      exact absurd (h.1 i) hne
  | discover cpu s _ ih =>
    exact (cmci_discover_fold_inv c capable cpu hen (List.range nr_mce_banks) s ih).1
  | clear cpu s _ ih =>
    unfold clear_cmci
    split_ifs
    · exact ih
    · exact clear_cmci_fold_inv c capable cpu (List.range nr_mce_banks) s ih

/-- C18: in the model of shared per-bank interrupt-control registers and
per-processor owned sets, started with no bank enabled and no bank owned and
stepped by serialized discovery passes and release passes, in every reachable
state no two processors' owned sets intersect, and immediately after any
discovery pass every bank below `nr_mce_banks` that supports threshold interrupts
is in the owned set of exactly one processor. -/
theorem exclusive_bank_ownership (c : cmci_h) (capable : Nat → Bool) (cmci_support : Bool)
    (mce_disabled : Int) (nr_mce_banks : Nat) (hen : c.CMCI_EN ≠ 0) (s : cmci_state)
    (hs : cmci_reachable c capable cmci_support mce_disabled nr_mce_banks s) :
    (∀ cpu1 cpu2, cpu1 ≠ cpu2 →
        Disjoint (s.mce_banks_owned cpu1) (s.mce_banks_owned cpu2)) ∧
      (∀ cpu i, i < nr_mce_banks → capable i = true →
        ∃! owner, i ∈ (cmci_discover c capable nr_mce_banks cpu s).mce_banks_owned owner) := by
  have hinv := cmci_reachable_inv c capable cmci_support mce_disabled nr_mce_banks hen s hs
  refine ⟨?_, ?_⟩
  · intro cpu1 cpu2 hne
    rw [Finset.disjoint_left]
    intro i h1 h2
    exact hne ((hinv i).2.1 cpu1 cpu2 h1 h2)
  · intro cpu i hi hcap
    obtain ⟨hinv', _, hown⟩ :=
      cmci_discover_fold_inv c capable cpu hen (List.range nr_mce_banks) s hinv
    obtain ⟨o, ho⟩ := hown i (List.mem_range.2 hi) hcap
    exact ⟨o, ho, fun o' ho' => (hinv' i).2.1 o' o ho' ho⟩

/-- Witness for C18: the architectural register layout, two banks of which only
bank 0 supports threshold interrupts; in the state reached by a discovery pass on
processor 1 the owned sets of processors 1 and 2 are disjoint, and after a
further discovery pass on processor 2 bank 0 has exactly one owner. -/
theorem exclusive_bank_ownership_witness :
    Disjoint
        ((cmci_discover sdm_cmci (fun i => decide (i = 0)) 2 1 cmci_sample).mce_banks_owned 1)
        ((cmci_discover sdm_cmci (fun i => decide (i = 0)) 2 1 cmci_sample).mce_banks_owned 2) ∧
      ∃! owner, 0 ∈ (cmci_discover sdm_cmci (fun i => decide (i = 0)) 2 2
        (cmci_discover sdm_cmci (fun i => decide (i = 0)) 2 1 cmci_sample)).mce_banks_owned
          owner :=
  ⟨(exclusive_bank_ownership sdm_cmci (fun i => decide (i = 0)) true 0 2 (by decide)
      (cmci_discover sdm_cmci (fun i => decide (i = 0)) 2 1 cmci_sample)
      (cmci_reachable.discover 1 cmci_sample
        (cmci_reachable.init cmci_sample ⟨fun _ => Nat.zero_and _, fun _ => rfl⟩))).1 1 2
      (by decide),
    (exclusive_bank_ownership sdm_cmci (fun i => decide (i = 0)) true 0 2 (by decide)
      (cmci_discover sdm_cmci (fun i => decide (i = 0)) 2 1 cmci_sample)
      (cmci_reachable.discover 1 cmci_sample
        (cmci_reachable.init cmci_sample ⟨fun _ => Nat.zero_and _, fun _ => rfl⟩))).2 2 0
      (by decide) rfl⟩

/-! ### Release on processor removal -/

/-- Effect of one release iteration for bank `j` on every register and on every
owned set. -/
theorem clear_cmci_step_spec (c : cmci_h) (capable : Nat → Bool) (cpu j : Nat)
    (s : cmci_state) :
    (∀ i, (clear_cmci_step c capable cpu s j).ctl2 i =
        if i = j ∧ j ∈ s.mce_banks_owned cpu then
          (if s.ctl2 j &&& (c.CMCI_EN ||| c.CMCI_THRESHOLD_MASK) ≠ 0 then
            wrmsr_ctl2 c capable j (s.ctl2 j &&& not64 (c.CMCI_EN ||| c.CMCI_THRESHOLD_MASK))
          else s.ctl2 j)
        else s.ctl2 i) ∧
      (∀ cpu' i, i ∈ (clear_cmci_step c capable cpu s j).mce_banks_owned cpu' ↔
        i ∈ s.mce_banks_owned cpu' ∧ ¬ (cpu' = cpu ∧ i = j)) := by
  unfold clear_cmci_step
  by_cases hown : j ∈ s.mce_banks_owned cpu
  · simp only [hown, not_true_eq_false, if_false, and_true]
    refine ⟨fun i => ?_, fun cpu' i => ?_⟩
    · by_cases hij : i = j
      · subst hij
        by_cases hv : s.ctl2 i &&& (c.CMCI_EN ||| c.CMCI_THRESHOLD_MASK) = 0 <;> simp [hv]
      · by_cases hv : s.ctl2 j &&& (c.CMCI_EN ||| c.CMCI_THRESHOLD_MASK) = 0 <;>
          simp [hv, Function.update_apply, hij]
    · by_cases hc : cpu' = cpu
      · subst hc
        split_ifs <;> simp [Finset.mem_erase, and_comm]
      · split_ifs <;> simp [Function.update_apply, hc]
  · simp only [hown, not_false_eq_true, if_true, and_false, if_false]
    refine ⟨by intros; trivial, fun cpu' i => ?_⟩
    constructor
    · intro h
      refine ⟨h, ?_⟩
      rintro ⟨rfl, rfl⟩
      exact hown h
    · intro h
      exact h.1

/-- Effect of a run of release iterations over a list of banks. -/
theorem clear_cmci_fold_spec (c : cmci_h) (capable : Nat → Bool) (cpu : Nat) (l : List Nat) :
    ∀ s : cmci_state,
      (∀ i, (l.foldl (clear_cmci_step c capable cpu) s).ctl2 i =
          if i ∈ l ∧ i ∈ s.mce_banks_owned cpu then
            (if s.ctl2 i &&& (c.CMCI_EN ||| c.CMCI_THRESHOLD_MASK) ≠ 0 then
              wrmsr_ctl2 c capable i (s.ctl2 i &&& not64 (c.CMCI_EN ||| c.CMCI_THRESHOLD_MASK))
            else s.ctl2 i)
          else s.ctl2 i) ∧
        (∀ cpu' i, i ∈ (l.foldl (clear_cmci_step c capable cpu) s).mce_banks_owned cpu' ↔
          i ∈ s.mce_banks_owned cpu' ∧ ¬ (cpu' = cpu ∧ i ∈ l)) := by
  induction l with
  | nil =>
    intro s
    simp
  | cons j l ih =>
    intro s
    obtain ⟨ih1, ih2⟩ := ih (clear_cmci_step c capable cpu s j)
    obtain ⟨st1, st2⟩ := clear_cmci_step_spec c capable cpu j s
    simp only [List.foldl_cons, List.mem_cons]
    refine ⟨fun i => ?_, fun cpu' i => ?_⟩
    · rw [ih1 i]
      simp only [st1, st2]
      by_cases hij : i = j
      · subst hij
        by_cases hown : i ∈ s.mce_banks_owned cpu <;> simp [hown]
      · by_cases hl : i ∈ l <;> by_cases hown : i ∈ s.mce_banks_owned cpu <;>
          simp [hij, hl, hown]
    · rw [ih2 cpu' i, st2 cpu' i]
      tauto

/-- The value a release iteration leaves in the register of an owned bank: no
`CMCI_EN`, no threshold bit, every other bit as before. -/
theorem released_ctl2_bits (c : cmci_h) (capable : Nat → Bool) (i v : Nat) (hv : v < 2 ^ 64) :
    (if v &&& (c.CMCI_EN ||| c.CMCI_THRESHOLD_MASK) ≠ 0 then
        wrmsr_ctl2 c capable i (v &&& not64 (c.CMCI_EN ||| c.CMCI_THRESHOLD_MASK))
      else v) = v &&& not64 (c.CMCI_EN ||| c.CMCI_THRESHOLD_MASK) := by
  have hen : (v &&& not64 (c.CMCI_EN ||| c.CMCI_THRESHOLD_MASK)) &&& c.CMCI_EN = 0 :=
    and_not64_and_eq_zero _ _ _ (and_or_self_left _ _).1
  have hlt : v &&& not64 (c.CMCI_EN ||| c.CMCI_THRESHOLD_MASK) < 2 ^ 64 :=
    lt_of_le_of_lt Nat.and_le_left hv
  split_ifs with h
  · unfold wrmsr_ctl2
    split_ifs
    · rfl
    · exact and_not64_eq_self _ _ hlt hen
  · exact (and_not64_eq_self v _ hv (by simpa using h)).symm

/-- C19: when bank-interrupt support is on and machine-check handling is not
disabled, after `clear_cmci` runs on a processor its owned set contains no bank
below `nr_mce_banks`; for every such bank it owned beforehand the control
register has `CMCI_EN` and all threshold bits cleared and every other bit as
before; and the control registers of the banks it did not own are unchanged.
Register values are 64-bit. -/
theorem clear_cmci_releases (c : cmci_h) (capable : Nat → Bool) (mce_disabled : Int)
    (nr_mce_banks cpu : Nat) (s : cmci_state) (hmd : mce_disabled ≠ 1)
    (h64 : ∀ i, s.ctl2 i < 2 ^ 64) :
    (∀ i, i < nr_mce_banks →
        i ∉ (clear_cmci c capable true mce_disabled nr_mce_banks cpu s).mce_banks_owned cpu) ∧
      (∀ i, i < nr_mce_banks → i ∈ s.mce_banks_owned cpu →
        (clear_cmci c capable true mce_disabled nr_mce_banks cpu s).ctl2 i &&& c.CMCI_EN = 0 ∧
        (clear_cmci c capable true mce_disabled nr_mce_banks cpu s).ctl2 i
            &&& c.CMCI_THRESHOLD_MASK = 0 ∧
        ∀ j, (c.CMCI_EN ||| c.CMCI_THRESHOLD_MASK).testBit j = false →
          ((clear_cmci c capable true mce_disabled nr_mce_banks cpu s).ctl2 i).testBit j
            = (s.ctl2 i).testBit j) ∧
      (∀ i, ¬ (i < nr_mce_banks ∧ i ∈ s.mce_banks_owned cpu) →
        (clear_cmci c capable true mce_disabled nr_mce_banks cpu s).ctl2 i = s.ctl2 i) := by
  obtain ⟨hctl, hown⟩ := clear_cmci_fold_spec c capable cpu (List.range nr_mce_banks) s
  have hdef : clear_cmci c capable true mce_disabled nr_mce_banks cpu s
      = (List.range nr_mce_banks).foldl (clear_cmci_step c capable cpu) s := by
    simp [clear_cmci, hmd]
  rw [hdef]
  refine ⟨?_, ?_, ?_⟩
  · intro i hi hm
    exact ((hown cpu i).1 hm).2 ⟨rfl, List.mem_range.2 hi⟩
  · intro i hi hm
    have hval : ((List.range nr_mce_banks).foldl (clear_cmci_step c capable cpu) s).ctl2 i
        = s.ctl2 i &&& not64 (c.CMCI_EN ||| c.CMCI_THRESHOLD_MASK) := by
      rw [hctl i, if_pos ⟨List.mem_range.2 hi, hm⟩]
      exact released_ctl2_bits c capable i (s.ctl2 i) (h64 i)
    rw [hval]
    exact ⟨and_not64_and_eq_zero _ _ _ (and_or_self_left _ _).1,
      and_not64_and_eq_zero _ _ _ (and_or_self_left _ _).2,
      fun j hj => and_not64_testBit _ _ j (h64 i) hj⟩
  · intro i hi
    rw [hctl i, if_neg]
    rintro ⟨h1, h2⟩
    exact hi ⟨List.mem_range.1 h1, h2⟩

/-- Witness for C19: processor 1 owns bank 0 whose register is 0x40100002; after
`clear_cmci` on processor 1 it owns nothing below 2 and `CMCI_EN` is clear in the
register of bank 0. -/
theorem clear_cmci_releases_witness :
    0 ∉ (clear_cmci sdm_cmci (fun _ => true) true 0 2 1 cmci_owned_sample).mce_banks_owned 1 ∧
      (clear_cmci sdm_cmci (fun _ => true) true 0 2 1 cmci_owned_sample).ctl2 0
        &&& sdm_cmci.CMCI_EN = 0 :=
  ⟨(clear_cmci_releases sdm_cmci (fun _ => true) 0 2 1 cmci_owned_sample (by decide)
      (fun i => by simp only [cmci_owned_sample]; split <;> decide)).1 0 (by decide),
    ((clear_cmci_releases sdm_cmci (fun _ => true) 0 2 1 cmci_owned_sample (by decide)
      (fun i => by simp only [cmci_owned_sample]; split <;> decide)).2.1 0 (by decide)
      (by decide)).1⟩

/-! ### Capability discovery -/

/-- C20: for every capability-register value and CPU description,
`intel_init_mca` run on a processor whose id is not 0 leaves all five
process-wide capability values unchanged, whether or not the locally derived
values agree with them (a disagreement only prints the warning); run on
processor 0 it writes the locally derived values. -/
theorem intel_init_mca_frozen (h : mcg_cap_h) (mce_force_broadcast cpu_has_apic : Bool)
    (first : Int) (smp_processor_id : Nat) (msr_content : Nat) (c : cpuinfo_x86)
    (g : mca_caps) :
    (smp_processor_id ≠ 0 →
        (intel_init_mca h mce_force_broadcast cpu_has_apic first smp_processor_id msr_content
            c g).1 = g ∧
        ((intel_init_mca h mce_force_broadcast cpu_has_apic first smp_processor_id msr_content
            c g).2 = true ↔
          intel_init_mca_local h mce_force_broadcast cpu_has_apic first msr_content c ≠ g)) ∧
      (smp_processor_id = 0 →
        (intel_init_mca h mce_force_broadcast cpu_has_apic first smp_processor_id msr_content
            c g).1
          = intel_init_mca_local h mce_force_broadcast cpu_has_apic first msr_content c) := by
  refine ⟨?_, ?_⟩
  · intro hne
    simp only [intel_init_mca, hne, if_false]
    split_ifs with hd
    · refine ⟨rfl, ?_⟩
      simp only [true_iff]
      intro heq
      rw [heq] at hd
      simp at hd
    · refine ⟨rfl, ?_⟩
      simp only [Bool.false_eq_true, false_iff, not_not]
      simp only [not_or, not_not] at hd
      obtain ⟨h1, h2, h3, h4, h5⟩ := hd
      cases hl : intel_init_mca_local h mce_force_broadcast cpu_has_apic first msr_content c
      cases g
      simp_all
  · intro h0
    simp [intel_init_mca, h0]

/-- Witness for C20: processor 3 reads a capability register announcing CMCI,
SER and 2 extended registers while the frozen values say none; the values stay
as frozen and the warning is printed. -/
theorem intel_init_mca_frozen_witness :
    (intel_init_mca sdm_mcg false true 0 3 0x1020600
        { x86_vendor := 0, x86 := 6, x86_model := 0x1a }
        { mce_broadcast := false, cmci_support := false, ser_support := false,
          nr_intel_ext_msrs := 0, firstbank := 0 }).1
      = { mce_broadcast := false, cmci_support := false, ser_support := false,
          nr_intel_ext_msrs := 0, firstbank := 0 } ∧
    (intel_init_mca sdm_mcg false true 0 3 0x1020600
        { x86_vendor := 0, x86 := 6, x86_model := 0x1a }
        { mce_broadcast := false, cmci_support := false, ser_support := false,
          nr_intel_ext_msrs := 0, firstbank := 0 }).2 = true :=
  ⟨((intel_init_mca_frozen sdm_mcg false true 0 3 0x1020600
      { x86_vendor := 0, x86 := 6, x86_model := 0x1a }
      { mce_broadcast := false, cmci_support := false, ser_support := false,
        nr_intel_ext_msrs := 0, firstbank := 0 }).1 (by decide)).1,
    by decide⟩

/-! ### Guest register guards -/

/-- C21: for every virtual CPU, register address and value, `intel_mce_wrmsr`
and `intel_mce_rdmsr` both return 1 if and only if
`MSR_IA32_MC0_CTL2 <= msr < MSR_IA32_MCx_CTL2(mcg_cap & MCG_CAP_COUNT)` and
return 0 otherwise; the two guards agree on every input, and the read guard
leaves the output value as it was. -/
theorem msr_guards (h : msr_h) (v : vcpu) (msr val out : Nat) :
    (intel_mce_wrmsr h v msr val = 1 ↔
        (h.MSR_IA32_MC0_CTL2 ≤ msr ∧
          msr < h.MSR_IA32_MCx_CTL2 (v.mcg_cap &&& h.MCG_CAP_COUNT))) ∧
      (intel_mce_wrmsr h v msr val = 0 ↔
        ¬ (h.MSR_IA32_MC0_CTL2 ≤ msr ∧
          msr < h.MSR_IA32_MCx_CTL2 (v.mcg_cap &&& h.MCG_CAP_COUNT))) ∧
      (intel_mce_rdmsr h v msr out).1 = intel_mce_wrmsr h v msr val ∧
      (intel_mce_rdmsr h v msr out).2 = out := by
  unfold intel_mce_wrmsr intel_mce_rdmsr
  by_cases hr : msr ≥ h.MSR_IA32_MC0_CTL2 ∧
      msr < h.MSR_IA32_MCx_CTL2 (v.mcg_cap &&& h.MCG_CAP_COUNT)
  · simp only [hr, and_self, if_true]
    simp [hr.1, hr.2]
  · simp only [hr, if_false]
    simp only [ge_iff_le] at hr
    simp [hr]

/-! ### Recoverability predicate -/

/-- C22: for every status and either value of `ser_support`,
`intel_recoverable_scan` returns 1 if and only if one of the five documented
cases holds: (1) UC = 0; (2) `ser_support`, OVER = 0, EN = 0 with UC = 1; (3)
SRAR: `ser_support`, OVER = 0, PCC = 0, S = 1, AR = 1 with UC = 1 and EN = 1; (4)
SRAO: `ser_support`, PCC = 0, S = 1, AR = 0, EN = 1 with UC = 1; (5) UCNA:
`ser_support`, OVER = 0, EN = 1, PCC = 0, S = 0, AR = 0 with UC = 1; and 0
otherwise. -/
theorem recoverable_scan_iff (k : x86_mca_h) (ser_support : Bool) (status : Nat) :
    (intel_recoverable_scan k ser_support status = 1 ↔
        (status &&& k.MCi_STATUS_UC = 0 ∨
          (ser_support = true ∧ status &&& k.MCi_STATUS_OVER = 0 ∧
            status &&& k.MCi_STATUS_EN = 0 ∧ status &&& k.MCi_STATUS_UC ≠ 0) ∨
          (ser_support = true ∧ status &&& k.MCi_STATUS_OVER = 0 ∧
            status &&& k.MCi_STATUS_PCC = 0 ∧ status &&& k.MCi_STATUS_S ≠ 0 ∧
            status &&& k.MCi_STATUS_AR ≠ 0 ∧ status &&& k.MCi_STATUS_UC ≠ 0 ∧
            status &&& k.MCi_STATUS_EN ≠ 0) ∨
          (ser_support = true ∧ status &&& k.MCi_STATUS_PCC = 0 ∧
            status &&& k.MCi_STATUS_S ≠ 0 ∧ status &&& k.MCi_STATUS_AR = 0 ∧
            status &&& k.MCi_STATUS_EN ≠ 0 ∧ status &&& k.MCi_STATUS_UC ≠ 0) ∨
          (ser_support = true ∧ status &&& k.MCi_STATUS_OVER = 0 ∧
            status &&& k.MCi_STATUS_EN ≠ 0 ∧ status &&& k.MCi_STATUS_PCC = 0 ∧
            status &&& k.MCi_STATUS_S = 0 ∧ status &&& k.MCi_STATUS_AR = 0 ∧
            status &&& k.MCi_STATUS_UC ≠ 0))) ∧
      (intel_recoverable_scan k ser_support status = 1 ∨
        intel_recoverable_scan k ser_support status = 0) := by
  unfold intel_recoverable_scan
  cases ser_support <;>
  by_cases h1 : status &&& k.MCi_STATUS_UC = 0 <;>
  by_cases h2 : status &&& k.MCi_STATUS_PCC = 0 <;>
  by_cases h3 : status &&& k.MCi_STATUS_OVER = 0 <;>
  by_cases h4 : status &&& k.MCi_STATUS_EN = 0 <;>
  by_cases h5 : status &&& k.MCi_STATUS_S = 0 <;>
  by_cases h6 : status &&& k.MCi_STATUS_AR = 0 <;>
  simp [h1, h2, h3, h4, h5, h6]

/-- C23: for every status that `intel_check_mce_type` classifies as Fatal, under
the same `ser_support` value `intel_need_clearbank_scan(MCA_MCE_SCAN, status)`
returns 0: a full error scan never clears a bank whose error the classifier
deems fatal. -/
theorem fatal_banks_stay_sticky (k : x86_mca_h) (ser_support : Bool) (status : Nat)
    (hfatal : intel_check_mce_type k ser_support status = intel_mce_fatal) :
    intel_need_clearbank_scan k ser_support mca_source.MCA_MCE_SCAN status = 0 := by
  unfold intel_check_mce_type intel_check_mce_type_body at hfatal
  unfold intel_need_clearbank_scan
  revert hfatal
  cases ser_support <;>
  by_cases h0 : status &&& k.MCi_STATUS_VAL = 0 <;>
  by_cases h1 : status &&& k.MCi_STATUS_UC = 0 <;>
  by_cases h2 : status &&& k.MCi_STATUS_PCC = 0 <;>
  by_cases h3 : status &&& k.MCi_STATUS_OVER = 0 <;>
  by_cases h4 : status &&& k.MCi_STATUS_EN = 0 <;>
  by_cases h5 : status &&& k.MCi_STATUS_S = 0 <;>
  by_cases h6 : status &&& k.MCi_STATUS_AR = 0 <;>
  simp [h0, h1, h2, h3, h4, h5, h6]

/-- Witness for C23: the three Fatal shapes (PCC set without UC; uncorrected
without software recovery support; signaled, address-recoverable with
OVERFLOW) are not cleared by a full error scan. -/
theorem fatal_banks_stay_sticky_witness :
    intel_need_clearbank_scan sdm true mca_source.MCA_MCE_SCAN 0x8200000000000000 = 0 ∧
      intel_need_clearbank_scan sdm false mca_source.MCA_MCE_SCAN 0xA000000000000000 = 0 ∧
      intel_need_clearbank_scan sdm true mca_source.MCA_MCE_SCAN 0xF180000000000134 = 0 :=
  ⟨fatal_banks_stay_sticky sdm true 0x8200000000000000 (by decide),
    fatal_banks_stay_sticky sdm false 0xA000000000000000 (by decide),
    fatal_banks_stay_sticky sdm true 0xF180000000000134 (by decide)⟩

/-- C24 as stated fails: with software recovery supported, the status with
VALID, UC, EN and S set and OVER, AR and PCC unset (the shape the header comment
gives for CMCI case 3) is not cleared in the CMCI-handler context: the function
returns 0, not 1. -/
theorem cmci_case3_as_commented_not_cleared :
    (0xB100000000000000 &&& sdm.MCi_STATUS_UC ≠ 0) ∧
      (0xB100000000000000 &&& sdm.MCi_STATUS_EN ≠ 0) ∧
      (0xB100000000000000 &&& sdm.MCi_STATUS_OVER = 0) ∧
      (0xB100000000000000 &&& sdm.MCi_STATUS_S ≠ 0) ∧
      (0xB100000000000000 &&& sdm.MCi_STATUS_AR = 0) ∧
      (0xB100000000000000 &&& sdm.MCi_STATUS_PCC = 0) ∧
      intel_need_clearbank_scan sdm true mca_source.MCA_CMCI_HANDLER 0xB100000000000000 = 0 ∧
      intel_need_clearbank_scan sdm true mca_source.MCA_CMCI_HANDLER 0xB100000000000000 ≠ 1 := by
  decide

/-- C24, amended: in the CMCI-handler context with `ser_support` set, for every
status with UC = 1, EN = 1, OVER = 0, S = 0, AR = 0 and PCC = 0 (the UCNA shape of
the classifier) `intel_need_clearbank_scan` returns 1; with S = 1 instead and
the other bits as stated it returns 0. -/
theorem cmci_ucna_cleared (k : x86_mca_h) (status : Nat)
    (huc : status &&& k.MCi_STATUS_UC ≠ 0) (hen : status &&& k.MCi_STATUS_EN ≠ 0)
    (hover : status &&& k.MCi_STATUS_OVER = 0) (har : status &&& k.MCi_STATUS_AR = 0)
    (hpcc : status &&& k.MCi_STATUS_PCC = 0) :
    (status &&& k.MCi_STATUS_S = 0 →
        intel_need_clearbank_scan k true mca_source.MCA_CMCI_HANDLER status = 1) ∧
      (status &&& k.MCi_STATUS_S ≠ 0 →
        intel_need_clearbank_scan k true mca_source.MCA_CMCI_HANDLER status = 0) := by
  unfold intel_need_clearbank_scan
  constructor <;> intro hs <;> simp [huc, hen, hover, har, hpcc, hs]

/-- Witness for C24 amended: the UCNA-shaped status 0xB000000000000000 is
cleared, the status 0xB100000000000000 with S set is not. -/
theorem cmci_ucna_cleared_witness :
    intel_need_clearbank_scan sdm true mca_source.MCA_CMCI_HANDLER 0xB000000000000000 = 1 ∧
      intel_need_clearbank_scan sdm true mca_source.MCA_CMCI_HANDLER 0xB100000000000000 = 0 :=
  ⟨(cmci_ucna_cleared sdm 0xB000000000000000 (by decide) (by decide) (by decide) (by decide)
      (by decide)).1 (by decide),
    (cmci_ucna_cleared sdm 0xB100000000000000 (by decide) (by decide) (by decide) (by decide)
      (by decide)).2 (by decide)⟩

/-- C25: for every status with VALID, UNCORRECTED and ENABLED all set, and either
value of `ser_support`, if `intel_recoverable_scan` returns 1 then
`intel_check_mce_type` under the same `ser_support` returns UCNA, SRAO or SRAR,
and so not Fatal. -/
theorem recoverable_scan_agrees_with_classifier (k : x86_mca_h) (ser_support : Bool)
    (status : Nat)
    (hval : status &&& k.MCi_STATUS_VAL ≠ 0) (huc : status &&& k.MCi_STATUS_UC ≠ 0)
    (hen : status &&& k.MCi_STATUS_EN ≠ 0)
    (hrec : intel_recoverable_scan k ser_support status = 1) :
    (intel_check_mce_type k ser_support status = intel_mce_ucr_ucna ∨
        intel_check_mce_type k ser_support status = intel_mce_ucr_srao ∨
        intel_check_mce_type k ser_support status = intel_mce_ucr_srar) ∧
      intel_check_mce_type k ser_support status ≠ intel_mce_fatal := by
  unfold intel_recoverable_scan at hrec
  unfold intel_check_mce_type intel_check_mce_type_body
  revert hrec
  cases ser_support <;>
  by_cases h2 : status &&& k.MCi_STATUS_PCC = 0 <;>
  by_cases h3 : status &&& k.MCi_STATUS_OVER = 0 <;>
  by_cases h5 : status &&& k.MCi_STATUS_S = 0 <;>
  by_cases h6 : status &&& k.MCi_STATUS_AR = 0 <;>
  simp [hval, huc, hen, h2, h3, h5, h6]

/-- Witness for C25: an enabled SRAO-shaped status is recoverable and is
classified SRAO. -/
theorem recoverable_scan_agrees_with_classifier_witness :
    intel_recoverable_scan sdm true 0xB100000000000000 = 1 ∧
      intel_check_mce_type sdm true 0xB100000000000000 = intel_mce_ucr_srao :=
  ⟨by decide,
    ((recoverable_scan_agrees_with_classifier sdm true 0xB100000000000000 (by decide)
      (by decide) (by decide) (by decide)).1.resolve_left (by decide)).resolve_right
      (by decide)⟩

/-! ### Pending page without a notifiable guest -/

/-- When the address preconditions hold and the retirement request returns 0
with a flag word that has Pending set and none of Offlined, RetryLater and
Owned, the builder requests the retirement and records the action; nothing else
happens. -/
theorem memerr_of_pending_unowned (k : x86_mca_h) (m : memerr_h) (env : extern_env)
    (s : hstate) (st : Nat)
    (haddrv : s.binfo.mib.mc_status &&& k.MCi_STATUS_ADDRV ≠ 0)
    (hmiscv : s.binfo.mib.mc_status &&& k.MCi_STATUS_MISCV ≠ 0)
    (hphys : s.binfo.mib.mc_misc &&& k.MCi_MISC_ADDRMOD_MASK = k.MCi_MISC_PHYSMOD)
    (hst32 : st < 2 ^ 32)
    (hret : env.offline_page (s.binfo.mib.mc_addr >>> m.PAGE_SHIFT) 1 = (0, st))
    (hoff : st &&& m.PG_OFFLINE_OFFLINED = 0) (hagain : st &&& m.PG_OFFLINE_AGAIN = 0)
    (hpend : st &&& m.PG_OFFLINE_PENDING ≠ 0) (hunowned : st &&& m.PG_OFFLINE_OWNED = 0) :
    intel_memerr_dhandler k m env s =
      { binfo := { s.binfo with
          mi := (mci_add_pageoff_action m env s.binfo.bank s.binfo.mi
            (s.binfo.mib.mc_addr >>> m.PAGE_SHIFT) st).2 },
        result := s.result,
        trace := s.trace ++ [event.memerr_enter,
          event.offline_page (s.binfo.mib.mc_addr >>> m.PAGE_SHIFT) 1],
        defect := s.defect } := by
  have hmod : st % 2 ^ 32 = st := Nat.mod_eq_of_lt hst32
  unfold intel_memerr_dhandler
  simp only [haddrv, hmiscv, hphys, hret, hmod, hoff, hagain, hpend, hunowned, ne_eq,
    not_true_eq_false, not_false_eq_true, or_self, if_false, if_true, List.append_assoc,
    List.singleton_append]

/-- The notification block for a page owned by the hypervisor domain only
stores the owner in the bank. -/
theorem memerr_notify_of_xen (m : memerr_h) (env : extern_env) (st mfn : Nat) (s : hstate)
    (hxen : page_owner m st = m.DOMID_XEN) (hdistinct : m.DOMID_XEN ≠ m.DOMID_COW) :
    memerr_notify m env st mfn s =
      { s with binfo := { s.binfo with mib := { s.binfo.mib with mc_domid := m.DOMID_XEN } } } := by
  unfold page_owner at hxen
  unfold memerr_notify
  simp only [hxen, hdistinct, ne_eq, not_true_eq_false, if_false]

/-- C26 as stated fails: a pending page that is not owned (flag word 4), reached
through `intel_srar_dhandler` with the address preconditions holding and a
successful retirement request, while the report has no room for another record.
No RecoveryAction is recorded: the report is only marked incomplete and its list
of records stays empty. -/
theorem pending_full_report_not_recorded :
    (4 &&& xen_h.PG_OFFLINE_PENDING ≠ 0) ∧ (4 &&& xen_h.PG_OFFLINE_OFFLINED = 0) ∧
      (4 &&& xen_h.PG_OFFLINE_AGAIN = 0) ∧ (4 &&& xen_h.PG_OFFLINE_OWNED = 0) ∧
      (env_report_full 4).offline_page 5 1 = (0, 4) ∧
      event.memerr_enter ∈ (intel_srar_dhandler sdm xen_h (env_report_full 4)
        (hstate.init (sample_binfo 0xAD80000000000134 0x5abc 0x80) MCER_CONTINUE)).trace ∧
      offline_requests (intel_srar_dhandler sdm xen_h (env_report_full 4)
        (hstate.init (sample_binfo 0xAD80000000000134 0x5abc 0x80) MCER_CONTINUE)).trace = [5] ∧
      (intel_srar_dhandler sdm xen_h (env_report_full 4)
        (hstate.init (sample_binfo 0xAD80000000000134 0x5abc 0x80) MCER_CONTINUE)).binfo.mi
        = some { flags := 1, recovery := [] } := by
  decide

/-- C26, amended: let the recovery builder be reached through
`intel_srao_dhandler` or `intel_srar_dhandler` with the address preconditions
holding, and let the retirement request return 0 with a flag word that has
Pending set and neither Offlined nor RetryLater, and either Owned unset or the
hypervisor domain DOMID_XEN as owner.  Then the RecoveryAction is recorded when
the report is present and has room for it (a report without room is only marked
incomplete, an absent report stays absent), the only calls made are the builder
entry and the retirement request, so no consumer is looked up, notified or
terminated, no defect stop is reached, and the outcome is the one preset by the
calling handler: Reset through `intel_srar_dhandler`, Continue through
`intel_srao_dhandler`.  DOMID_XEN and DOMID_COW are distinct identifiers. -/
theorem pending_without_guest (k : x86_mca_h) (m : memerr_h) (ser_support : Bool)
    (env : extern_env) (h : handler_fn) (b : mca_binfo) (r : mce_result) (st : Nat)
    (hdistinct : m.DOMID_XEN ≠ m.DOMID_COW)
    (hreach : event.memerr_enter ∈ (call_handler k m ser_support env h (hstate.init b r)).trace)
    (haddrv : b.mib.mc_status &&& k.MCi_STATUS_ADDRV ≠ 0)
    (hmiscv : b.mib.mc_status &&& k.MCi_STATUS_MISCV ≠ 0)
    (hphys : b.mib.mc_misc &&& k.MCi_MISC_ADDRMOD_MASK = k.MCi_MISC_PHYSMOD)
    (hst32 : st < 2 ^ 32)
    (hret : env.offline_page (b.mib.mc_addr >>> m.PAGE_SHIFT) 1 = (0, st))
    (hoff : st &&& m.PG_OFFLINE_OFFLINED = 0) (hagain : st &&& m.PG_OFFLINE_AGAIN = 0)
    (hpend : st &&& m.PG_OFFLINE_PENDING ≠ 0)
    (hnoguest : st &&& m.PG_OFFLINE_OWNED = 0 ∨ page_owner m st = m.DOMID_XEN) :
    ((h = handler_fn.intel_srar_dhandler →
          (call_handler k m ser_support env h (hstate.init b r)).result = MCER_RESET) ∧
        (h = handler_fn.intel_srao_dhandler →
          (call_handler k m ser_support env h (hstate.init b r)).result = MCER_CONTINUE) ∧
        (h = handler_fn.intel_srar_dhandler ∨ h = handler_fn.intel_srao_dhandler)) ∧
      (∀ i, b.mi = some i → env.x86_mcinfo_reserve i = true →
        (call_handler k m ser_support env h (hstate.init b r)).binfo.mi
          = some { i with recovery := i.recovery ++
              [{ mc_bank := b.bank, action_types := m.MC_ACTION_PAGE_OFFLINE,
                 mfn := b.mib.mc_addr >>> m.PAGE_SHIFT, status := st }] }) ∧
      (∀ i, b.mi = some i → env.x86_mcinfo_reserve i = false →
        (call_handler k m ser_support env h (hstate.init b r)).binfo.mi
          = some { i with flags := i.flags ||| m.MCINFO_FLAGS_UNCOMPLETE }) ∧
      (b.mi = none →
        (call_handler k m ser_support env h (hstate.init b r)).binfo.mi = none) ∧
      (call_handler k m ser_support env h (hstate.init b r)).trace
        = [event.memerr_enter, event.offline_page (b.mib.mc_addr >>> m.PAGE_SHIFT) 1] ∧
      (∀ e ∈ (call_handler k m ser_support env h (hstate.init b r)).trace,
        consumer_event e = false) ∧
      (call_handler k m ser_support env h (hstate.init b r)).defect = none := by
  -- the builder on an entry state with preset r'
  have key : ∀ r' : mce_result,
      (intel_memerr_dhandler k m env
          { binfo := b, result := r', trace := [], defect := none }).result = r' ∧
      (intel_memerr_dhandler k m env
          { binfo := b, result := r', trace := [], defect := none }).binfo.mi
        = (mci_add_pageoff_action m env b.bank b.mi (b.mib.mc_addr >>> m.PAGE_SHIFT) st).2 ∧
      (intel_memerr_dhandler k m env
          { binfo := b, result := r', trace := [], defect := none }).trace
        = [event.memerr_enter, event.offline_page (b.mib.mc_addr >>> m.PAGE_SHIFT) 1] ∧
      (intel_memerr_dhandler k m env
          { binfo := b, result := r', trace := [], defect := none }).defect = none := by
    intro r'
    by_cases howned : st &&& m.PG_OFFLINE_OWNED = 0
    · rw [memerr_of_pending_unowned k m env _ st haddrv hmiscv hphys hst32 hret hoff hagain
        hpend howned]
      simp
    · have hxen : page_owner m st = m.DOMID_XEN := by
        rcases hnoguest with h0 | h0
        · exact absurd h0 howned
        · exact h0
      rw [memerr_of_pending_owned k m env _ st haddrv hmiscv hphys hst32 hret hoff hagain
        hpend howned, memerr_notify_of_xen m env st _ _ hxen hdistinct]
      simp
  have hrun : ∃ r' : mce_result,
      call_handler k m ser_support env h (hstate.init b r)
        = intel_memerr_dhandler k m env { binfo := b, result := r', trace := [], defect := none } ∧
      (h = handler_fn.intel_srar_dhandler → r' = MCER_RESET) ∧
      (h = handler_fn.intel_srao_dhandler → r' = MCER_CONTINUE) ∧
      (h = handler_fn.intel_srar_dhandler ∨ h = handler_fn.intel_srao_dhandler) := by
    cases h
    · obtain ⟨hval, hcode⟩ := (srao_reaches_iff k m env b r).1 hreach
      refine ⟨MCER_CONTINUE, ?_, by simp, by simp, Or.inr rfl⟩
      simp only [call_handler, intel_srao_dhandler, hstate.init, hval, hcode, ne_eq,
        not_false_eq_true, if_true]
    · have hcode := (srar_reaches_iff k m env b r).1 hreach
      refine ⟨MCER_RESET, ?_, by simp, by simp, Or.inl rfl⟩
      simp only [call_handler, intel_srar_dhandler, hstate.init, hcode, if_true]
    · simp [call_handler, intel_default_mce_dhandler, hstate.init] at hreach
      split_ifs at hreach <;> simp at hreach
    · simp [call_handler, intel_default_mce_uhandler, hstate.init] at hreach
      split at hreach <;> simp at hreach
  obtain ⟨r', hrun, hsrar, hsrao, hh⟩ := hrun
  obtain ⟨kres, kmi, ktrace, kdef⟩ := key r'
  rw [hrun]
  refine ⟨⟨fun e => by rw [kres]; exact hsrar e, fun e => by rw [kres]; exact hsrao e, hh⟩,
    ?_, ?_, ?_, ktrace, ?_, kdef⟩
  · intro i hmi hroom
    rw [kmi]
    simp [mci_add_pageoff_action, hmi, hroom]
  · intro i hmi hfull
    rw [kmi]
    simp [mci_add_pageoff_action, hmi, hfull]
  · intro hmi
    rw [kmi]
    simp [mci_add_pageoff_action, hmi]
  · rw [ktrace]
    simp [consumer_event]

/-- Witness for C26 amended: a pending page that is not owned (flag word 4)
reached through `intel_srar_dhandler`, and one owned by the hypervisor domain
(flag word 0x7FF21004) reached through `intel_srao_dhandler`.  The outcome stays
Reset, respectively Continue, the action is recorded in the empty report, and
nothing but the retirement is requested. -/
theorem pending_without_guest_witness :
    (call_handler sdm xen_h true (env_ok 4) handler_fn.intel_srar_dhandler
        (hstate.init (sample_binfo 0xAD80000000000134 0x5abc 0x80) MCER_CONTINUE)).result
      = MCER_RESET ∧
    (call_handler sdm xen_h true (env_ok 4) handler_fn.intel_srar_dhandler
        (hstate.init (sample_binfo 0xAD80000000000134 0x5abc 0x80) MCER_CONTINUE)).binfo.mi
      = some { flags := 0,
               recovery := [{ mc_bank := 1, action_types := 1, mfn := 5, status := 4 }] } ∧
    (call_handler sdm xen_h true (env_ok 0x7FF21004) handler_fn.intel_srao_dhandler
        (hstate.init (sample_binfo 0xAD000000000000C5 0x5abc 0x80) MCER_RESET)).result
      = MCER_CONTINUE ∧
    (call_handler sdm xen_h true (env_ok 0x7FF21004) handler_fn.intel_srao_dhandler
        (hstate.init (sample_binfo 0xAD000000000000C5 0x5abc 0x80) MCER_RESET)).trace
      = [event.memerr_enter, event.offline_page 5 1] :=
  ⟨(pending_without_guest sdm xen_h true (env_ok 4) handler_fn.intel_srar_dhandler
      (sample_binfo 0xAD80000000000134 0x5abc 0x80) MCER_CONTINUE 4 (by decide) (by decide)
      (by decide) (by decide) (by decide) (by decide) (by decide) (by decide) (by decide)
      (by decide) (Or.inl (by decide))).1.1 rfl,
    (pending_without_guest sdm xen_h true (env_ok 4) handler_fn.intel_srar_dhandler
      (sample_binfo 0xAD80000000000134 0x5abc 0x80) MCER_CONTINUE 4 (by decide) (by decide)
      (by decide) (by decide) (by decide) (by decide) (by decide) (by decide) (by decide)
      (by decide) (Or.inl (by decide))).2.1 { flags := 0, recovery := [] } rfl rfl,
    (pending_without_guest sdm xen_h true (env_ok 0x7FF21004) handler_fn.intel_srao_dhandler
      (sample_binfo 0xAD000000000000C5 0x5abc 0x80) MCER_RESET 0x7FF21004 (by decide)
      (by decide) (by decide) (by decide) (by decide) (by decide) (by decide) (by decide)
      (by decide) (by decide) (Or.inr (by decide))).1.2.1 rfl,
    (pending_without_guest sdm xen_h true (env_ok 0x7FF21004) handler_fn.intel_srao_dhandler
      (sample_binfo 0xAD000000000000C5 0x5abc 0x80) MCER_RESET 0x7FF21004 (by decide)
      (by decide) (by decide) (by decide) (by decide) (by decide) (by decide) (by decide)
      (by decide) (by decide) (Or.inr (by decide))).2.2.2.2.1⟩

end MceIntel
